import Mathlib

/-!
Verification development for the energy-audit scoring and recommendation
engine.  The Python source is shallowly embedded over `ℚ`: every numeric
field of the snapshot data model becomes a rational, Python's
`round(x, n)` becomes exact round-half-to-even at `n` decimal digits,
and list-processing code becomes structurally identical list functions.
Human-readable strings that are only displayed (finding texts and
templated recommendation descriptions) are not modelled; every numeric
field, ordering decision and trigger condition is.
-/

namespace EnergyAudit
/-! ## Round-half-even, the semantics of Python's `round(x, ndigits)` -/

/-- Round a rational to the nearest integer, ties to even
(the rounding mode of Python's built-in `round`). -/
def rhe (x : ℚ) : ℤ :=
  if x - ⌊x⌋ < 1/2 then ⌊x⌋
  else if 1/2 < x - ⌊x⌋ then ⌊x⌋ + 1
  else if ⌊x⌋ % 2 = 0 then ⌊x⌋ else ⌊x⌋ + 1

/-- Python's `round(x, n)` for nonnegative `n`, on exact rationals. -/
def roundTo (n : ℕ) (x : ℚ) : ℚ :=
  (rhe (x * 10 ^ n) : ℚ) / 10 ^ n

/-! ## Data model (src/energy_audit/data/models.py)

Numeric fields are rationals, `int` fields are naturals (all have `ge=0`
pydantic bounds), flags are booleans, enums are closed inductives.
Fields that no analysis or scorer reads (ids, locations, memory totals,
rack thermals, workload type and priority, the config strings) are kept
only where some modelled function touches them. -/

inductive ServerType where
  | cpu
  | gpu_training
  | gpu_inference
  | storage
deriving DecidableEq

inductive CoolingType where
  | air
  | liquid
  | hybrid
deriving DecidableEq

inductive Grade where
  | A
  | B
  | C
  | D
  | F
deriving DecidableEq

structure Server where
  name : String
  server_type : ServerType
  tdp_watts : ℚ
  current_power_watts : ℚ
  cpu_utilization : ℚ
  gpu_utilization : ℚ
  memory_utilization : ℚ
  age_months : ℕ
  warranty_months : ℕ
  is_zombie : Bool
  is_overprovisioned : Bool
deriving DecidableEq

/-- Computed field `Server.is_past_warranty`. -/
def Server.is_past_warranty (s : Server) : Bool :=
  s.age_months > s.warranty_months

structure Rack where
  name : String
  max_power_kw : ℚ
  current_power_kw : ℚ
deriving DecidableEq

/-- Computed field `Rack.power_utilization_pct`. -/
def Rack.power_utilization_pct (r : Rack) : ℚ :=
  if r.max_power_kw = 0 then 0
  else roundTo 2 (r.current_power_kw / r.max_power_kw * 100)

structure Workload where
  name : String
  power_consumption_kw : ℚ
  is_schedulable : Bool
deriving DecidableEq

structure EnergyReading where
  timestamp : ℤ
  total_facility_power_kw : ℚ
  it_equipment_power_kw : ℚ
  cooling_power_kw : ℚ
  lighting_power_kw : ℚ
  ups_loss_kw : ℚ
deriving DecidableEq

/-- Computed field `EnergyReading.pue` (0.0 when IT power is zero). -/
def EnergyReading.pue (r : EnergyReading) : ℚ :=
  if r.it_equipment_power_kw = 0 then 0
  else roundTo 4 (r.total_facility_power_kw / r.it_equipment_power_kw)

structure CoolingSystem where
  id : String
  name : String
  cooling_type : CoolingType
  cop : ℚ
  capacity_kw : ℚ
  current_load_kw : ℚ
deriving DecidableEq

/-- Computed field `CoolingSystem.load_pct`. -/
def CoolingSystem.load_pct (cs : CoolingSystem) : ℚ :=
  if cs.capacity_kw = 0 then 0
  else roundTo 2 (cs.current_load_kw / cs.capacity_kw * 100)

structure DataCenterConfig where
  name : String
  total_power_capacity_mw : ℚ
  energy_cost_per_kwh : ℚ
  carbon_intensity_gco2_per_kwh : ℚ
  renewable_percentage : ℚ
  ppa_available : Bool
  pue_target : ℚ
deriving DecidableEq

structure DataCenter where
  config : DataCenterConfig
  servers : List Server
  racks : List Rack
  workloads : List Workload
  energy_readings : List EnergyReading
  cooling_systems : List CoolingSystem
deriving DecidableEq

namespace DataCenter

/-- Computed field `DataCenter.total_servers`. -/
def total_servers (dc : DataCenter) : ℕ :=
  dc.servers.length

/-- Computed field `DataCenter.gpu_server_count`. -/
def gpu_server_count (dc : DataCenter) : ℕ :=
  (dc.servers.filter fun s =>
    s.server_type = ServerType.gpu_training ∨ s.server_type = ServerType.gpu_inference).length

/-- Computed field `DataCenter.avg_cpu_utilization`. -/
def avg_cpu_utilization (dc : DataCenter) : ℚ :=
  if dc.servers = [] then 0
  else roundTo 4 ((dc.servers.map Server.cpu_utilization).sum / dc.servers.length)

/-- Computed field `DataCenter.avg_gpu_utilization` (mean over servers with
`gpu_utilization > 0`; 0.0 when there are none). -/
def avg_gpu_utilization (dc : DataCenter) : ℚ :=
  let gpu_servers := dc.servers.filter fun s => 0 < s.gpu_utilization
  if gpu_servers = [] then 0
  else roundTo 4 ((gpu_servers.map Server.gpu_utilization).sum / gpu_servers.length)

/-- Computed field `DataCenter.zombie_count`. -/
def zombie_count (dc : DataCenter) : ℕ :=
  (dc.servers.filter fun s => s.is_zombie).length

/-- Computed field `DataCenter.overprovisioned_count`. -/
def overprovisioned_count (dc : DataCenter) : ℕ :=
  (dc.servers.filter fun s => s.is_overprovisioned).length

/-- Computed field `DataCenter.avg_pue` (mean over readings with `pue > 0`;
0.0 when there are none). -/
def avg_pue (dc : DataCenter) : ℚ :=
  let valid := dc.energy_readings.filter fun r => 0 < r.pue
  if valid = [] then 0
  else roundTo 4 ((valid.map EnergyReading.pue).sum / valid.length)

/-- Computed field `DataCenter.total_energy_kwh`. -/
def total_energy_kwh (dc : DataCenter) : ℚ :=
  roundTo 2 (dc.energy_readings.map EnergyReading.total_facility_power_kw).sum

/-- Computed field `DataCenter.total_cost`. -/
def total_cost (dc : DataCenter) : ℚ :=
  roundTo 2 (dc.total_energy_kwh * dc.config.energy_cost_per_kwh)

/-- Computed field `DataCenter.avg_server_age_months`. -/
def avg_server_age_months (dc : DataCenter) : ℚ :=
  if dc.servers = [] then 0
  else roundTo 2 ((dc.servers.map fun s => (s.age_months : ℚ)).sum / dc.servers.length)

end DataCenter

/-! ## Output entities (numeric and ordering content only) -/

structure SubMetricScore where
  name : String
  value : ℚ
  score : ℚ
  weight : ℚ
  grade : Grade
deriving DecidableEq

structure BoxScore where
  box_number : ℕ
  box_name : String
  overall_score : ℚ
  grade : Grade
  sub_metrics : List SubMetricScore
deriving DecidableEq

structure Recommendation where
  rank : ℕ
  box_number : ℕ
  title : String
  monthly_savings_dollars : ℚ
  monthly_energy_savings_kwh : ℚ
  effort : String
  impact : String
deriving DecidableEq

/-! ## Grade mapper and static tables
(src/energy_audit/scoring/thresholds.py, weights.py) -/

def GRADE_A_MIN : ℚ := 85

def GRADE_B_MIN : ℚ := 70

def GRADE_C_MIN : ℚ := 55

def GRADE_D_MIN : ℚ := 40

def UTIL_TARGET_CPU : ℚ := 60/100

def UTIL_TARGET_GPU : ℚ := 75/100

def COST_BENCHMARK_PER_KWH : ℚ := 10/100

def COP_BENCHMARK_AIR : ℚ := 3

def COP_BENCHMARK_LIQUID : ℚ := 5

def WARRANTY_MONTHS : ℕ := 36

def USEFUL_LIFE_MONTHS : ℕ := 60

def REFRESH_WINDOW_MIN : ℕ := 36

def REFRESH_WINDOW_MAX : ℕ := 60

/-- Function `score_to_grade` from scoring/thresholds.py. -/
def score_to_grade (score : ℚ) : Grade :=
  if GRADE_A_MIN ≤ score then Grade.A
  else if GRADE_B_MIN ≤ score then Grade.B
  else if GRADE_C_MIN ≤ score then Grade.C
  else if GRADE_D_MIN ≤ score then Grade.D
  else Grade.F

/-- Ordinal rank of a grade, A best; used to state monotonicity. -/
def gradeRank : Grade → ℕ
  | Grade.F => 0
  | Grade.D => 1
  | Grade.C => 2
  | Grade.B => 3
  | Grade.A => 4

def BOX1_NAME : String := "Current Operations"

def BOX2_NAME : String := "Legacy & Waste"

def BOX3_NAME : String := "Future Readiness"

def BOX1_WEIGHT : ℚ := 40/100

def BOX2_WEIGHT : ℚ := 30/100

def BOX3_WEIGHT : ℚ := 30/100

def BOX1_PUE_WEIGHT : ℚ := 25/100

def BOX1_UTILIZATION_WEIGHT : ℚ := 20/100

def BOX1_COST_WEIGHT : ℚ := 20/100

def BOX1_COOLING_WEIGHT : ℚ := 15/100

def BOX1_AVAILABILITY_WEIGHT : ℚ := 10/100

def BOX1_CARBON_WEIGHT : ℚ := 10/100

def BOX2_ZOMBIE_WEIGHT : ℚ := 30/100

def BOX2_OVERPROV_WEIGHT : ℚ := 25/100

def BOX2_LEGACY_WEIGHT : ℚ := 20/100

def BOX2_COOLING_WASTE_WEIGHT : ℚ := 15/100

def BOX2_STRANDED_WEIGHT : ℚ := 10/100

def BOX3_FORECAST_WEIGHT : ℚ := 20/100

def BOX3_REFRESH_WEIGHT : ℚ := 20/100

def BOX3_SCHEDULING_WEIGHT : ℚ := 20/100

def BOX3_RENEWABLE_WEIGHT : ℚ := 20/100

def BOX3_TREND_WEIGHT : ℚ := 20/100

/-! ## Box 1: Current Operations (src/energy_audit/scoring/box1_present.py)

Each sub-scorer returns `(raw value, score)` exactly as the Python
helper does; the finding strings the helpers emit are display-only and
not modelled. -/

def scorePue (dc : DataCenter) : ℚ × ℚ :=
  let pue := dc.avg_pue
  if pue ≤ 0 then (0, 0)
  else (pue, roundTo 2 (max 0 (min 100 ((2 - pue) / 1 * 100))))

/-- The shared CPU/GPU component pattern of `_score_utilization`:
clamp the ratio to target, then penalize 500 points per unit above the
over-utilization threshold. -/
def utilComponentScore (avg target thr : ℚ) : ℚ :=
  let base := max 0 (min 100 (avg / target * 100))
  if thr < avg then max 0 (base - (avg - thr) * 500) else base

def scoreUtilization (dc : DataCenter) : ℚ × ℚ :=
  if dc.servers = [] then (0, 0)
  else
    let cpu_avg := dc.avg_cpu_utilization
    let cpu_score := utilComponentScore cpu_avg UTIL_TARGET_CPU (90/100)
    let gpu_avg := dc.avg_gpu_utilization
    let gpu_score := utilComponentScore gpu_avg UTIL_TARGET_GPU (95/100)
    let total := dc.total_servers
    let gpu_count := dc.gpu_server_count
    let gpu_fraction : ℚ := if 0 < total then (gpu_count : ℚ) / (total : ℚ) else 0
    let gpu_weight : ℚ := if 30/100 < gpu_fraction then 7/10 else 4/10
    let cpu_weight : ℚ := 1 - gpu_weight
    (roundTo 4 (cpu_avg * cpu_weight + gpu_avg * gpu_weight),
      roundTo 2 (cpu_score * cpu_weight + gpu_score * gpu_weight))

def scoreCost (dc : DataCenter) : ℚ × ℚ :=
  let cost := dc.config.energy_cost_per_kwh
  if cost ≤ COST_BENCHMARK_PER_KWH then (cost, 100)
  else (cost, roundTo 2 (max 0 (min 100 ((2 - cost / COST_BENCHMARK_PER_KWH) * 100))))

def scoreCooling (dc : DataCenter) : ℚ × ℚ :=
  if dc.cooling_systems = [] then (0, 50)
  else
    let avg_cop := (dc.cooling_systems.map CoolingSystem.cop).sum / dc.cooling_systems.length
    let liquid_count := (dc.cooling_systems.filter fun cs => cs.cooling_type = CoolingType.liquid).length
    let benchmark := if (dc.cooling_systems.length : ℚ) / 2 < (liquid_count : ℚ)
      then COP_BENCHMARK_LIQUID else COP_BENCHMARK_AIR
    let score := min 100 (avg_cop / benchmark * 80)
    (roundTo 2 avg_cop, roundTo 2 (max 0 score))

def scoreAvailability (dc : DataCenter) : ℚ × ℚ :=
  let target_pue := dc.config.pue_target
  let valid := dc.energy_readings.filter fun r => 0 < r.pue
  if valid = [] then (0, 50)
  else
    let tolerance := target_pue * (10/100)
    let within_count := (valid.filter fun r => |r.pue - target_pue| ≤ tolerance).length
    let pct_within : ℚ := (within_count : ℚ) / (valid.length : ℚ)
    let score : ℚ :=
      if 95/100 ≤ pct_within then 100
      else if pct_within < 80/100 then 0
      else (pct_within - 80/100) / (15/100) * 100
    (roundTo 4 pct_within, roundTo 2 score)

def scoreCarbon (dc : DataCenter) : ℚ × ℚ :=
  let carbon := dc.config.carbon_intensity_gco2_per_kwh
  (carbon, roundTo 2 (max 0 (min 100 ((500 - carbon) / 4))))

/-- Function `score_box1` from box1_present.py (finding strings not modelled). -/
def score_box1 (dc : DataCenter) : BoxScore :=
  let p := scorePue dc
  let u := scoreUtilization dc
  let c := scoreCost dc
  let k := scoreCooling dc
  let a := scoreAvailability dc
  let g := scoreCarbon dc
  let overall := roundTo 2
    (p.2 * BOX1_PUE_WEIGHT + u.2 * BOX1_UTILIZATION_WEIGHT + c.2 * BOX1_COST_WEIGHT
      + k.2 * BOX1_COOLING_WEIGHT + a.2 * BOX1_AVAILABILITY_WEIGHT + g.2 * BOX1_CARBON_WEIGHT)
  { box_number := 1
    box_name := BOX1_NAME
    overall_score := overall
    grade := score_to_grade overall
    sub_metrics :=
      [ { name := "PUE Efficiency", value := p.1, score := p.2,
          weight := BOX1_PUE_WEIGHT, grade := score_to_grade p.2 },
        { name := "Server Utilization", value := roundTo 2 (u.1 * 100), score := u.2,
          weight := BOX1_UTILIZATION_WEIGHT, grade := score_to_grade u.2 },
        { name := "Cost Efficiency", value := c.1, score := c.2,
          weight := BOX1_COST_WEIGHT, grade := score_to_grade c.2 },
        { name := "Cooling Performance", value := k.1, score := k.2,
          weight := BOX1_COOLING_WEIGHT, grade := score_to_grade k.2 },
        { name := "Operational Availability", value := roundTo 2 (a.1 * 100), score := a.2,
          weight := BOX1_AVAILABILITY_WEIGHT, grade := score_to_grade a.2 },
        { name := "Carbon Intensity", value := g.1, score := g.2,
          weight := BOX1_CARBON_WEIGHT, grade := score_to_grade g.2 } ] }

/-! ## Box 2: Legacy & Waste (src/energy_audit/scoring/box2_forget.py) -/

def scoreZombie (dc : DataCenter) : ℚ × ℚ :=
  if dc.total_servers = 0 then (0, 100)
  else
    let zombie_pct : ℚ := (dc.zombie_count : ℚ) / (dc.total_servers : ℚ)
    (roundTo 4 zombie_pct, roundTo 2 (max 0 (100 - zombie_pct * 500)))

def scoreOverprovisioned (dc : DataCenter) : ℚ × ℚ :=
  if dc.total_servers = 0 then (0, 100)
  else
    let overprov_pct : ℚ := (dc.overprovisioned_count : ℚ) / (dc.total_servers : ℚ)
    (roundTo 4 overprov_pct, roundTo 2 (max 0 (100 - overprov_pct * 400)))

def scoreLegacy (dc : DataCenter) : ℚ × ℚ :=
  if dc.total_servers = 0 then (0, 100)
  else
    let past_warranty := (dc.servers.filter fun s => s.warranty_months < s.age_months).length
    let past_useful := (dc.servers.filter fun s => USEFUL_LIFE_MONTHS < s.age_months).length
    let past_warranty_pct : ℚ := (past_warranty : ℚ) / (dc.total_servers : ℚ)
    let past_useful_pct : ℚ := (past_useful : ℚ) / (dc.total_servers : ℚ)
    (roundTo 2 dc.avg_server_age_months,
      roundTo 2 (max 0 (100 - past_warranty_pct * 150 - past_useful_pct * 300)))

/-- The COP benchmark Box 2 applies to one cooling system
(liquid 5.0, everything else 3.0). -/
def box2CoolingBenchmark (cs : CoolingSystem) : ℚ :=
  if cs.cooling_type = CoolingType.liquid then COP_BENCHMARK_LIQUID else COP_BENCHMARK_AIR

def scoreCoolingWaste (dc : DataCenter) : ℚ × ℚ :=
  if dc.cooling_systems = [] then (0, 100)
  else
    let waste_count := (dc.cooling_systems.filter fun cs =>
      85 < cs.load_pct ∨ cs.cop < box2CoolingBenchmark cs).length
    let waste_pct : ℚ := (waste_count : ℚ) / (dc.cooling_systems.length : ℚ)
    (roundTo 4 waste_pct, roundTo 2 (max 0 (100 - waste_pct * 200)))

def scoreStranded (dc : DataCenter) : ℚ × ℚ :=
  if dc.racks = [] then (0, 100)
  else
    let stranded_count := (dc.racks.filter fun r => r.power_utilization_pct < 30).length
    let stranded_pct : ℚ := (stranded_count : ℚ) / (dc.racks.length : ℚ)
    (roundTo 4 stranded_pct, roundTo 2 (max 0 (100 - stranded_pct * 300)))

/-- Function `score_box2` from box2_forget.py (finding strings not modelled). -/
def score_box2 (dc : DataCenter) : BoxScore :=
  let z := scoreZombie dc
  let o := scoreOverprovisioned dc
  let l := scoreLegacy dc
  let k := scoreCoolingWaste dc
  let st := scoreStranded dc
  let overall := roundTo 2
    (z.2 * BOX2_ZOMBIE_WEIGHT + o.2 * BOX2_OVERPROV_WEIGHT + l.2 * BOX2_LEGACY_WEIGHT
      + k.2 * BOX2_COOLING_WASTE_WEIGHT + st.2 * BOX2_STRANDED_WEIGHT)
  { box_number := 2
    box_name := BOX2_NAME
    overall_score := overall
    grade := score_to_grade overall
    sub_metrics :=
      [ { name := "Zombie Servers", value := roundTo 2 (z.1 * 100), score := z.2,
          weight := BOX2_ZOMBIE_WEIGHT, grade := score_to_grade z.2 },
        { name := "Over-Provisioned Resources", value := roundTo 2 (o.1 * 100), score := o.2,
          weight := BOX2_OVERPROV_WEIGHT, grade := score_to_grade o.2 },
        { name := "Legacy Hardware", value := l.1, score := l.2,
          weight := BOX2_LEGACY_WEIGHT, grade := score_to_grade l.2 },
        { name := "Cooling Waste", value := roundTo 2 (k.1 * 100), score := k.2,
          weight := BOX2_COOLING_WASTE_WEIGHT, grade := score_to_grade k.2 },
        { name := "Stranded Capacity", value := roundTo 2 (st.1 * 100), score := st.2,
          weight := BOX2_STRANDED_WEIGHT, grade := score_to_grade st.2 } ] }

/-! ## Stable sorting

Python's `sorted(..., key=...)` and `list.sort(key=..., reverse=True)` are
stable.  `sIns lt x l` inserts `x` before the first element `y` with
`lt x y`; folding it left over the input therefore places every later
element after earlier elements with an equal key, which is exactly
Python's stable ordering once `lt` is a strict comparison on keys. -/

def sIns {α : Type} (lt : α → α → Prop) [DecidableRel lt] (x : α) : List α → List α
  | [] => [x]
  | y :: ys => if lt x y then x :: y :: ys else y :: sIns lt x ys

def sSort {α : Type} (lt : α → α → Prop) [DecidableRel lt] (l : List α) : List α :=
  l.foldl (fun acc x => sIns lt x acc) []

/-- Chronological sort of energy readings
(`sorted(dc.energy_readings, key=lambda r: r.timestamp)`). -/
def sortReadings (l : List EnergyReading) : List EnergyReading :=
  sSort (fun a b => a.timestamp < b.timestamp) l

/-- Mean of `f` over a list, as the Python `sum(...) / len(...)`. -/
def avgBy {α : Type} (f : α → ℚ) (l : List α) : ℚ :=
  (l.map f).sum / l.length

/-! ## Box 3: Future Readiness (src/energy_audit/scoring/box3_future.py) -/

def scoreForecast (dc : DataCenter) : ℚ × ℚ :=
  let total_capacity_kw := dc.config.total_power_capacity_mw * 1000
  if dc.energy_readings = [] ∨ total_capacity_kw ≤ 0 then (0, 50)
  else
    let readings := sortReadings dc.energy_readings
    let recent := if 24 ≤ readings.length then readings.drop (readings.length - 24) else readings
    let current_avg_kw := avgBy EnergyReading.total_facility_power_kw recent
    let months0 : ℚ :=
      if 48 ≤ readings.length then
        let early_avg := avgBy EnergyReading.total_facility_power_kw (readings.take 24)
        let late_avg := avgBy EnergyReading.total_facility_power_kw (readings.drop (readings.length - 24))
        let hours_span : ℤ := max 1 ((readings.length : ℤ) - 24)
        let growth_kw_per_hour := (late_avg - early_avg) / (hours_span : ℚ)
        if 0 < growth_kw_per_hour then
          (total_capacity_kw - current_avg_kw) / growth_kw_per_hour / (24 * 30)
        else 120
      else
        let headroom_pct := (total_capacity_kw - current_avg_kw) / total_capacity_kw
        if 50/100 < headroom_pct then 36
        else if 25/100 < headroom_pct then 18
        else 6
    let months_to_capacity := max 0 (min 120 months0)
    let score : ℚ :=
      if 24 < months_to_capacity then 100
      else if 12 < months_to_capacity then 70
      else if 6 < months_to_capacity then 40
      else 10
    (roundTo 1 months_to_capacity, roundTo 2 score)

def scoreRefresh (dc : DataCenter) : ℚ × ℚ :=
  if dc.total_servers = 0 then (0, 50)
  else
    let total := dc.total_servers
    let in_window := (dc.servers.filter fun s =>
      REFRESH_WINDOW_MIN ≤ s.age_months ∧ s.age_months ≤ REFRESH_WINDOW_MAX).length
    let too_old := (dc.servers.filter fun s => REFRESH_WINDOW_MAX < s.age_months).length
    let pct_in_window : ℚ := (in_window : ℚ) / (total : ℚ)
    let score0 := pct_in_window * 100
    let score := if 0 < too_old then max 0 (score0 - (too_old : ℚ) / (total : ℚ) * 50) else score0
    (roundTo 4 pct_in_window, roundTo 2 (max 0 (min 100 score)))

def scoreScheduling (dc : DataCenter) : ℚ × ℚ :=
  if dc.workloads = [] then (0, 50)
  else
    let total_workloads := dc.workloads.length
    let schedulable := dc.workloads.filter fun w => w.is_schedulable
    let schedulable_pct : ℚ := (schedulable.length : ℚ) / (total_workloads : ℚ)
    let schedulable_power_kw := (schedulable.map Workload.power_consumption_kw).sum
    let total_power_kw := (dc.workloads.map Workload.power_consumption_kw).sum
    let schedulable_power_pct := if 0 < total_power_kw then schedulable_power_kw / total_power_kw else 0
    let score := min 100 (schedulable_pct * 60 + schedulable_power_pct * 40)
    (roundTo 4 schedulable_pct, roundTo 2 score)

def scoreRenewable (dc : DataCenter) : ℚ × ℚ :=
  let renewable := dc.config.renewable_percentage
  let score0 := renewable * 100
  let score := if dc.config.ppa_available ∧ renewable < 50/100 then min 100 (score0 + 10) else score0
  (roundTo 4 renewable, roundTo 2 (min 100 score))

def scoreTrend (dc : DataCenter) : ℚ × ℚ :=
  let valid := (sortReadings dc.energy_readings).filter fun r => 0 < r.pue
  if valid.length < 48 then (0, 60)
  else
    let window := min 168 (valid.length / 3)
    let early_avg := avgBy EnergyReading.pue (valid.take window)
    let late_avg := avgBy EnergyReading.pue (valid.drop (valid.length - window))
    let delta := late_avg - early_avg
    let score : ℚ := if delta < -(2/100) then 100 else if 2/100 < delta then 20 else 60
    (roundTo 4 delta, roundTo 2 score)

/-- Function `score_box3` from box3_future.py (finding strings not modelled). -/
def score_box3 (dc : DataCenter) : BoxScore :=
  let f := scoreForecast dc
  let r := scoreRefresh dc
  let s := scoreScheduling dc
  let w := scoreRenewable dc
  let t := scoreTrend dc
  let overall := roundTo 2
    (f.2 * BOX3_FORECAST_WEIGHT + r.2 * BOX3_REFRESH_WEIGHT + s.2 * BOX3_SCHEDULING_WEIGHT
      + w.2 * BOX3_RENEWABLE_WEIGHT + t.2 * BOX3_TREND_WEIGHT)
  { box_number := 3
    box_name := BOX3_NAME
    overall_score := overall
    grade := score_to_grade overall
    sub_metrics :=
      [ { name := "Forecast Readiness", value := f.1, score := f.2,
          weight := BOX3_FORECAST_WEIGHT, grade := score_to_grade f.2 },
        { name := "Hardware Refresh", value := roundTo 2 (r.1 * 100), score := r.2,
          weight := BOX3_REFRESH_WEIGHT, grade := score_to_grade r.2 },
        { name := "Scheduling Optimization", value := roundTo 2 (s.1 * 100), score := s.2,
          weight := BOX3_SCHEDULING_WEIGHT, grade := score_to_grade s.2 },
        { name := "Renewable Energy", value := roundTo 2 (w.1 * 100), score := w.2,
          weight := BOX3_RENEWABLE_WEIGHT, grade := score_to_grade w.2 },
        { name := "Efficiency Trend", value := t.1, score := t.2,
          weight := BOX3_TREND_WEIGHT, grade := score_to_grade t.2 } ] }

/-! ## Scoring orchestrator (src/energy_audit/scoring/engine.py) -/

namespace ScoringEngine

/-- Method `ScoringEngine.score`: the full scoring pipeline, returning
`(box1, box2, box3, overall_score, overall_grade)`. -/
def score (dc : DataCenter) : BoxScore × BoxScore × BoxScore × ℚ × Grade :=
  let box1 := score_box1 dc
  let box2 := score_box2 dc
  let box3 := score_box3 dc
  let overall := roundTo 2
    (box1.overall_score * BOX1_WEIGHT + box2.overall_score * BOX2_WEIGHT
      + box3.overall_score * BOX3_WEIGHT)
  (box1, box2, box3, overall, score_to_grade overall)

end ScoringEngine

/-! ## Zombie detection (src/energy_audit/analysis/zombie_detector.py) -/

/-- The zombie test of `zombie_detector._is_zombie`: the flag, or CPU
utilization below 5% on a server not marked overprovisioned. -/
def isZombie (s : Server) : Bool :=
  s.is_zombie || (decide (s.cpu_utilization < 5/100) && !s.is_overprovisioned)

structure ZombieEntry where
  server_name : String
  server_type : ServerType
  age_months : ℕ
  power_watts : ℚ
  monthly_waste_kwh : ℚ
  monthly_waste_dollars : ℚ
deriving DecidableEq

/-- One output dictionary of `detect_zombies`. -/
def mkZombieEntry (cost_per_kwh : ℚ) (s : Server) : ZombieEntry :=
  let monthly_waste_kwh := s.current_power_watts * 24 * 30 / 1000
  { server_name := s.name
    server_type := s.server_type
    age_months := s.age_months
    power_watts := s.current_power_watts
    monthly_waste_kwh := roundTo 2 monthly_waste_kwh
    monthly_waste_dollars := roundTo 2 (monthly_waste_kwh * cost_per_kwh) }

/-- Function `detect_zombies` (the append loop becomes filter-then-map). -/
def detect_zombies (dc : DataCenter) : List ZombieEntry :=
  (dc.servers.filter isZombie).map (mkZombieEntry dc.config.energy_cost_per_kwh)

/-! ## Over-provisioning (src/energy_audit/analysis/overprovisioning.py) -/

/-- Predicate `overprovisioning._is_overprovisioned`: the flag, or memory-bound but
CPU-idle (memory above 70%, CPU below 20%). -/
def isOverprovisioned (s : Server) : Bool :=
  s.is_overprovisioned || (decide (7/10 < s.memory_utilization) && decide (s.cpu_utilization < 2/10))

structure OverprovEntry where
  server_name : String
  cpu_util : ℚ
  memory_util : ℚ
  gpu_util : ℚ
  current_power : ℚ
  potential_savings_watts : ℚ
deriving DecidableEq

def mkOverprovEntry (s : Server) : OverprovEntry :=
  { server_name := s.name
    cpu_util := s.cpu_utilization
    memory_util := s.memory_utilization
    gpu_util := s.gpu_utilization
    current_power := s.current_power_watts
    potential_savings_watts := roundTo 2 (max (s.current_power_watts - s.tdp_watts * (3/10)) 0) }

/-- Function `detect_overprovisioned`. -/
def detect_overprovisioned (dc : DataCenter) : List OverprovEntry :=
  (dc.servers.filter isOverprovisioned).map mkOverprovEntry

/-! ## Hardware lifecycle (src/energy_audit/analysis/hardware_lifecycle.py) -/

structure LifecycleData where
  age_under_12mo : ℕ
  age_12_to_36mo : ℕ
  age_36_to_60mo : ℕ
  age_over_60mo : ℕ
  past_warranty_count : ℕ
  past_warranty_pct : ℚ
  past_useful_life_count : ℕ
  refresh_candidates : ℕ
  estimated_refresh_savings_kwh : ℚ
deriving DecidableEq

/-- Refresh candidate: age above 48 months or past warranty. -/
def isRefreshCandidate (s : Server) : Bool :=
  decide (48 < s.age_months) || s.is_past_warranty

/-- Function `analyze_hardware_lifecycle`. -/
def analyze_hardware_lifecycle (dc : DataCenter) : LifecycleData :=
  if dc.servers = [] then
    { age_under_12mo := 0, age_12_to_36mo := 0, age_36_to_60mo := 0, age_over_60mo := 0
      past_warranty_count := 0, past_warranty_pct := 0, past_useful_life_count := 0
      refresh_candidates := 0, estimated_refresh_savings_kwh := 0 }
  else
    let total := dc.servers.length
    let past_warranty_count := (dc.servers.filter Server.is_past_warranty).length
    let refresh := dc.servers.filter isRefreshCandidate
    let refresh_candidate_power_watts := (refresh.map Server.current_power_watts).sum
    { age_under_12mo := (dc.servers.filter fun s => s.age_months < 12).length
      age_12_to_36mo := (dc.servers.filter fun s => 12 ≤ s.age_months ∧ s.age_months < 36).length
      age_36_to_60mo := (dc.servers.filter fun s => 36 ≤ s.age_months ∧ s.age_months < 60).length
      age_over_60mo := (dc.servers.filter fun s => 60 ≤ s.age_months).length
      past_warranty_count := past_warranty_count
      past_warranty_pct := roundTo 2 ((past_warranty_count : ℚ) / (total : ℚ) * 100)
      past_useful_life_count := (dc.servers.filter fun s => 60 < s.age_months).length
      refresh_candidates := refresh.length
      estimated_refresh_savings_kwh :=
        roundTo 2 (refresh_candidate_power_watts * (30/100) * 24 * 30 / 1000) }

/-! ## Cooling analysis (src/energy_audit/analysis/cooling_analyzer.py) -/

/-- Per-type COP benchmarks of the cooling analyzer
(distinct from the Box 1/Box 2 scoring benchmarks). -/
def analyzerCopBenchmark : CoolingType → ℚ
  | CoolingType.air => 35/10
  | CoolingType.liquid => 6
  | CoolingType.hybrid => 45/10

/-- Python's `cs.name or cs.id` (empty string is falsy). -/
def csDisplayName (cs : CoolingSystem) : String :=
  if cs.name = "" then cs.id else cs.name

structure CoolingData where
  avg_cop : ℚ
  cooling_systems_count : ℕ
  overloaded_systems : List String
  underperforming_systems : List String
  total_cooling_power_kw : ℚ
  cooling_as_pct_of_total : ℚ
  improvement_potential_kwh : ℚ
deriving DecidableEq

/-- Contribution of one cooling system to `improvement_potential_kw`:
only underperforming systems contribute, clamped at zero. -/
def improvementKw (cs : CoolingSystem) : ℚ :=
  if cs.cop < analyzerCopBenchmark cs.cooling_type then
    if 0 < analyzerCopBenchmark cs.cooling_type then
      max (cs.current_load_kw * (1 - cs.cop / analyzerCopBenchmark cs.cooling_type)) 0
    else 0
  else 0

/-- Function `analyze_cooling`. -/
def analyze_cooling (dc : DataCenter) : CoolingData :=
  if dc.cooling_systems = [] then
    { avg_cop := 0, cooling_systems_count := 0, overloaded_systems := []
      underperforming_systems := [], total_cooling_power_kw := 0
      cooling_as_pct_of_total := 0, improvement_potential_kwh := 0 }
  else
    let systems := dc.cooling_systems
    let total_cooling_power_kw := (systems.map CoolingSystem.current_load_kw).sum
    let improvement_potential_kw := (systems.map improvementKw).sum
    let avg_cop := (systems.map CoolingSystem.cop).sum / systems.length
    let total_facility_power_kw :=
      match dc.energy_readings.getLast? with
      | some r => r.total_facility_power_kw
      | none => 0
    let cooling_pct :=
      if 0 < total_facility_power_kw then total_cooling_power_kw / total_facility_power_kw * 100
      else 0
    { avg_cop := roundTo 2 avg_cop
      cooling_systems_count := systems.length
      overloaded_systems := (systems.filter fun cs => 85 < cs.load_pct).map csDisplayName
      underperforming_systems :=
        (systems.filter fun cs => cs.cop < analyzerCopBenchmark cs.cooling_type).map csDisplayName
      total_cooling_power_kw := roundTo 2 total_cooling_power_kw
      cooling_as_pct_of_total := roundTo 2 cooling_pct
      improvement_potential_kwh := roundTo 2 (improvement_potential_kw * 24 * 30) }

/-! ## Workload scheduling (src/energy_audit/analysis/workload_optimizer.py) -/

structure SchedulingData where
  total_workloads : ℕ
  schedulable_count : ℕ
  schedulable_pct : ℚ
  schedulable_power_kw : ℚ
  estimated_monthly_savings_dollars : ℚ
deriving DecidableEq

/-- Function `analyze_workload_scheduling` (15% off-peak savings assumption). -/
def analyze_workload_scheduling (dc : DataCenter) : SchedulingData :=
  if dc.workloads = [] then
    { total_workloads := 0, schedulable_count := 0, schedulable_pct := 0
      schedulable_power_kw := 0, estimated_monthly_savings_dollars := 0 }
  else
    let total_workloads := dc.workloads.length
    let schedulable := dc.workloads.filter fun w => w.is_schedulable
    let schedulable_power_kw := (schedulable.map Workload.power_consumption_kw).sum
    let monthly_energy_kwh := schedulable_power_kw * 24 * 30
    { total_workloads := total_workloads
      schedulable_count := schedulable.length
      schedulable_pct := roundTo 2 ((schedulable.length : ℚ) / (total_workloads : ℚ) * 100)
      schedulable_power_kw := roundTo 2 schedulable_power_kw
      estimated_monthly_savings_dollars :=
        roundTo 2 (monthly_energy_kwh * dc.config.energy_cost_per_kwh * (15/100)) }

/-! ## Renewable opportunity (src/energy_audit/analysis/renewable_advisor.py) -/

structure RenewableData where
  current_renewable_pct : ℚ
  ppa_available : Bool
  current_carbon_intensity : ℚ
  potential_carbon_reduction_tons_monthly : ℚ
  renewable_opportunity_score : ℚ
  estimated_cost_impact_monthly : ℚ
deriving DecidableEq

/-- Function `analyze_renewable_opportunity` (PPA savings $0.01/kWh, renewable
premium $0.03/kWh, halved above 50% renewable). -/
def analyze_renewable_opportunity (dc : DataCenter) : RenewableData :=
  let config := dc.config
  let total_monthly_kwh := dc.total_energy_kwh
  let non_renewable_fraction := 1 - config.renewable_percentage
  let non_renewable_kwh := total_monthly_kwh * non_renewable_fraction
  let carbon_reduction_tons :=
    non_renewable_kwh * config.carbon_intensity_gco2_per_kwh / 1000 / 1000
  let base_score :=
    if config.ppa_available then min (non_renewable_fraction * 100 + 10) 100
    else non_renewable_fraction * 100
  let cost_impact :=
    if config.ppa_available then -(non_renewable_kwh * (1/100))
    else if config.renewable_percentage < 1/2 then non_renewable_kwh * (3/100)
    else non_renewable_kwh * (3/100 * (1/2))
  { current_renewable_pct := roundTo 2 (config.renewable_percentage * 100)
    ppa_available := config.ppa_available
    current_carbon_intensity := config.carbon_intensity_gco2_per_kwh
    potential_carbon_reduction_tons_monthly := roundTo 2 carbon_reduction_tons
    renewable_opportunity_score := roundTo 1 base_score
    estimated_cost_impact_monthly := roundTo 2 cost_impact }

/-! ## Cost projection (src/energy_audit/analysis/cost_projector.py) -/

structure CostData where
  current_monthly : ℚ
  annual_projected : ℚ
  growth_rate_pct : ℚ
  projected_12mo_cost : ℚ
  cost_per_server_monthly : ℚ
deriving DecidableEq

/-- Function `project_costs` (week-over-week growth, 12-month monthly compounding). -/
def project_costs (dc : DataCenter) : CostData :=
  let current_monthly := dc.total_cost
  let annual_projected := current_monthly * 12
  let readings := dc.energy_readings
  let week_hours : ℕ := 7 * 24
  let growth_rate_pct : ℚ :=
    if 2 * week_hours ≤ readings.length then
      let avg_first := avgBy EnergyReading.total_facility_power_kw (readings.take week_hours)
      let avg_last := avgBy EnergyReading.total_facility_power_kw
        (readings.drop (readings.length - week_hours))
      if 0 < avg_first then
        let raw_growth := (avg_last - avg_first) / avg_first
        let gap_hours : ℤ := (readings.length : ℤ) - week_hours
        let gap_months : ℚ := if 0 < gap_hours then (gap_hours : ℚ) / (24 * 30) else 1
        if 0 < gap_months then raw_growth / gap_months * 100 else 0
      else 0
    else 0
  let monthly_growth_rate := growth_rate_pct / 100
  let projected_12mo_cost :=
    if monthly_growth_rate ≠ 0 then
      ((List.range 12).map fun month => current_monthly * (1 + monthly_growth_rate) ^ month).sum
    else annual_projected
  let cost_per_server :=
    if 0 < dc.total_servers then current_monthly / (dc.total_servers : ℚ) else 0
  { current_monthly := roundTo 2 current_monthly
    annual_projected := roundTo 2 annual_projected
    growth_rate_pct := roundTo 2 growth_rate_pct
    projected_12mo_cost := roundTo 2 projected_12mo_cost
    cost_per_server_monthly := roundTo 2 cost_per_server }

/-! ## Impact calculators (src/energy_audit/recommendations/impact_calculator.py)

Each returns `(monthly_savings_dollars, monthly_energy_savings_kwh)`. -/

def calculate_zombie_impact (zombie_data : List ZombieEntry) (_cfg : DataCenterConfig) : ℚ × ℚ :=
  let total_kwh := (zombie_data.map ZombieEntry.monthly_waste_kwh).sum
  let total_dollars := (zombie_data.map ZombieEntry.monthly_waste_dollars).sum
  (roundTo 2 total_dollars, roundTo 2 total_kwh)

def calculate_rightsizing_impact (overprov_data : List OverprovEntry) (cfg : DataCenterConfig) : ℚ × ℚ :=
  let total_savings_watts := (overprov_data.map OverprovEntry.potential_savings_watts).sum
  let monthly_kwh := total_savings_watts * 24 * 30 / 1000
  (roundTo 2 (monthly_kwh * cfg.energy_cost_per_kwh), roundTo 2 monthly_kwh)

def calculate_scheduling_impact (d : SchedulingData) : ℚ × ℚ :=
  (roundTo 2 d.estimated_monthly_savings_dollars,
    roundTo 2 (d.schedulable_power_kw * 24 * 30 * (15/100)))

def calculate_refresh_impact (d : LifecycleData) (cfg : DataCenterConfig) : ℚ × ℚ :=
  (roundTo 2 (d.estimated_refresh_savings_kwh * cfg.energy_cost_per_kwh),
    roundTo 2 d.estimated_refresh_savings_kwh)

def calculate_cooling_impact (d : CoolingData) (cfg : DataCenterConfig) : ℚ × ℚ :=
  (roundTo 2 (d.improvement_potential_kwh * cfg.energy_cost_per_kwh),
    roundTo 2 d.improvement_potential_kwh)

/-- Function `calculate_renewable_impact`: negative cost impact (PPA savings) becomes
positive dollar savings, a premium becomes zero; the kWh figure is the
carbon reduction at 2000 kWh per ton. -/
def calculate_renewable_impact (d : RenewableData) : ℚ × ℚ :=
  let monthly_dollars :=
    if d.estimated_cost_impact_monthly < 0 then |d.estimated_cost_impact_monthly| else 0
  (roundTo 2 monthly_dollars, roundTo 2 (d.potential_carbon_reduction_tons_monthly * 2000))

/-! ## Recommendation templates (src/energy_audit/recommendations/templates.py)

Only the metadata enters the numeric pipeline; the description template
strings are display-only and not modelled. -/

structure RecommendationTemplate where
  title : String
  box_number : ℕ
  effort : String
  impact : String
deriving DecidableEq

def ZOMBIE_DECOMMISSION : RecommendationTemplate :=
  { title := "Decommission Zombie Servers", box_number := 2, effort := "low", impact := "high" }

def OVERPROVISIONED_RIGHTSIZING : RecommendationTemplate :=
  { title := "Rightsize Over-Provisioned Servers", box_number := 2, effort := "medium", impact := "medium" }

def LEGACY_HARDWARE_REFRESH : RecommendationTemplate :=
  { title := "Refresh Legacy Hardware", box_number := 2, effort := "high", impact := "high" }

def COOLING_UPGRADE : RecommendationTemplate :=
  { title := "Upgrade Underperforming Cooling Systems", box_number := 1, effort := "high", impact := "high" }

def WORKLOAD_SCHEDULING : RecommendationTemplate :=
  { title := "Optimize Workload Scheduling", box_number := 3, effort := "low", impact := "medium" }

def RENEWABLE_ENERGY : RecommendationTemplate :=
  { title := "Increase Renewable Energy Adoption", box_number := 3, effort := "medium", impact := "high" }

def PUE_IMPROVEMENT : RecommendationTemplate :=
  { title := "Improve Power Usage Effectiveness (PUE)", box_number := 1, effort := "medium", impact := "high" }

def CAPACITY_PLANNING : RecommendationTemplate :=
  { title := "Implement Proactive Capacity Planning", box_number := 3, effort := "medium", impact := "medium" }

/-! ## Recommendation engine (src/energy_audit/recommendations/engine.py) -/

/-- A candidate dictionary of `RecommendationEngine.generate`
(description string not modelled). -/
structure Candidate where
  title : String
  box_number : ℕ
  effort : String
  impact : String
  monthly_savings_dollars : ℚ
  monthly_energy_savings_kwh : ℚ
deriving DecidableEq

/-- Build a candidate from a template and an impact pair. -/
def mkCandidate (t : RecommendationTemplate) (dk : ℚ × ℚ) : Candidate :=
  { title := t.title, box_number := t.box_number, effort := t.effort, impact := t.impact
    monthly_savings_dollars := dk.1, monthly_energy_savings_kwh := dk.2 }

/-- Python `if cond: candidates.append(x)` as a zero-or-one element list. -/
def iteL {α : Type} (c : Prop) [Decidable c] (x : α) : List α :=
  if c then [x] else []

namespace RecommendationEngine

def MAX_RECOMMENDATIONS : ℕ := 15

/-- Candidate 7 (PUE improvement), computed inline in `generate`. -/
def pueCandidate (dc : DataCenter) : Candidate :=
  let avg_pue := dc.avg_pue
  let pue_gap := avg_pue - dc.config.pue_target
  let it_power_kw :=
    match dc.energy_readings.getLast? with
    | some r => r.it_equipment_power_kw
    | none => 0
  let savings_kwh := it_power_kw * pue_gap * 24 * 30
  mkCandidate PUE_IMPROVEMENT
    (roundTo 2 (savings_kwh * dc.config.energy_cost_per_kwh), roundTo 2 savings_kwh)

/-- Candidate 8 (capacity planning), computed inline in `generate`. -/
def capacityCandidate (dc : DataCenter) : Candidate :=
  let cost_data := project_costs dc
  let potential_annual_savings := (cost_data.projected_12mo_cost - cost_data.annual_projected) * (1/2)
  let monthly_savings := potential_annual_savings / 12
  let monthly_kwh :=
    if 0 < dc.config.energy_cost_per_kwh then monthly_savings / dc.config.energy_cost_per_kwh
    else 0
  mkCandidate CAPACITY_PLANNING
    (roundTo 2 (max monthly_savings 0), roundTo 2 (max monthly_kwh 0))

def zombieCandidate (dc : DataCenter) : Candidate :=
  mkCandidate ZOMBIE_DECOMMISSION (calculate_zombie_impact (detect_zombies dc) dc.config)

def rightsizingCandidate (dc : DataCenter) : Candidate :=
  mkCandidate OVERPROVISIONED_RIGHTSIZING
    (calculate_rightsizing_impact (detect_overprovisioned dc) dc.config)

def refreshCandidate (dc : DataCenter) : Candidate :=
  mkCandidate LEGACY_HARDWARE_REFRESH
    (calculate_refresh_impact (analyze_hardware_lifecycle dc) dc.config)

def coolingCandidate (dc : DataCenter) : Candidate :=
  mkCandidate COOLING_UPGRADE (calculate_cooling_impact (analyze_cooling dc) dc.config)

def schedulingCandidate (dc : DataCenter) : Candidate :=
  mkCandidate WORKLOAD_SCHEDULING (calculate_scheduling_impact (analyze_workload_scheduling dc))

def renewableCandidate (dc : DataCenter) : Candidate :=
  mkCandidate RENEWABLE_ENERGY (calculate_renewable_impact (analyze_renewable_opportunity dc))

/-- The candidate list of `RecommendationEngine.generate`, in
category-generation order (zombie, rightsizing, refresh, cooling,
scheduling, renewable, PUE improvement, capacity planning); each block
is present exactly when its trigger condition holds. -/
def candidates (dc : DataCenter) : List Candidate :=
  iteL (detect_zombies dc ≠ []) (zombieCandidate dc)
    ++ (iteL (detect_overprovisioned dc ≠ []) (rightsizingCandidate dc)
    ++ (iteL (0 < (analyze_hardware_lifecycle dc).refresh_candidates) (refreshCandidate dc)
    ++ (iteL ((analyze_cooling dc).underperforming_systems ≠ []
        ∨ (analyze_cooling dc).overloaded_systems ≠ []) (coolingCandidate dc)
    ++ (iteL (0 < (analyze_workload_scheduling dc).schedulable_count) (schedulingCandidate dc)
    ++ (iteL (20 < (analyze_renewable_opportunity dc).renewable_opportunity_score)
      (renewableCandidate dc)
    ++ (iteL (dc.config.pue_target < dc.avg_pue) (pueCandidate dc)
    ++ iteL (1 < (project_costs dc).growth_rate_pct) (capacityCandidate dc)))))))

/-- Strict comparison of `candidates.sort(key=..., reverse=True)`:
`x` goes before `y` exactly when `x` saves strictly more dollars, so the
stable insertion keeps ties in generation order. -/
def candLt (a b : Candidate) : Prop :=
  b.monthly_savings_dollars < a.monthly_savings_dollars

instance : DecidableRel candLt := fun a b =>
  inferInstanceAs (Decidable (b.monthly_savings_dollars < a.monthly_savings_dollars))

def mkRec (rank : ℕ) (c : Candidate) : Recommendation :=
  { rank := rank, box_number := c.box_number, title := c.title
    monthly_savings_dollars := c.monthly_savings_dollars
    monthly_energy_savings_kwh := c.monthly_energy_savings_kwh
    effort := c.effort, impact := c.impact }

/-- Python `enumerate(candidates, start=1)` over the truncated list. -/
def rankFrom : ℕ → List Candidate → List Recommendation
  | _, [] => []
  | n, c :: cs => mkRec n c :: rankFrom (n + 1) cs

/-- Method `RecommendationEngine.generate`: sort candidates by monthly dollar
savings descending (stable), truncate to 15, assign ranks from 1. -/
def generate (dc : DataCenter) : List Recommendation :=
  rankFrom 1 ((sSort candLt (candidates dc)).take MAX_RECOMMENDATIONS)

end RecommendationEngine

/-! ## Structural validity

The pydantic field constraints of models.py (`gt`/`ge`/`le` bounds);
a snapshot that pydantic accepts satisfies them. -/

def ServerValid (s : Server) : Prop :=
  0 < s.tdp_watts ∧ 0 ≤ s.current_power_watts
    ∧ 0 ≤ s.cpu_utilization ∧ s.cpu_utilization ≤ 1
    ∧ 0 ≤ s.gpu_utilization ∧ s.gpu_utilization ≤ 1
    ∧ 0 ≤ s.memory_utilization ∧ s.memory_utilization ≤ 1

instance : DecidablePred ServerValid := fun s =>
  inferInstanceAs (Decidable (0 < s.tdp_watts ∧ 0 ≤ s.current_power_watts
    ∧ 0 ≤ s.cpu_utilization ∧ s.cpu_utilization ≤ 1
    ∧ 0 ≤ s.gpu_utilization ∧ s.gpu_utilization ≤ 1
    ∧ 0 ≤ s.memory_utilization ∧ s.memory_utilization ≤ 1))

def RackValid (r : Rack) : Prop :=
  0 < r.max_power_kw ∧ 0 ≤ r.current_power_kw

instance : DecidablePred RackValid := fun r =>
  inferInstanceAs (Decidable (0 < r.max_power_kw ∧ 0 ≤ r.current_power_kw))

def WorkloadValid (w : Workload) : Prop :=
  0 ≤ w.power_consumption_kw

instance : DecidablePred WorkloadValid := fun w =>
  inferInstanceAs (Decidable (0 ≤ w.power_consumption_kw))

def ReadingValid (r : EnergyReading) : Prop :=
  0 ≤ r.total_facility_power_kw ∧ 0 ≤ r.it_equipment_power_kw
    ∧ 0 ≤ r.cooling_power_kw ∧ 0 ≤ r.lighting_power_kw ∧ 0 ≤ r.ups_loss_kw

instance : DecidablePred ReadingValid := fun r =>
  inferInstanceAs (Decidable (0 ≤ r.total_facility_power_kw ∧ 0 ≤ r.it_equipment_power_kw
    ∧ 0 ≤ r.cooling_power_kw ∧ 0 ≤ r.lighting_power_kw ∧ 0 ≤ r.ups_loss_kw))

def CoolingValid (cs : CoolingSystem) : Prop :=
  0 < cs.cop ∧ 0 < cs.capacity_kw ∧ 0 ≤ cs.current_load_kw

instance : DecidablePred CoolingValid := fun cs =>
  inferInstanceAs (Decidable (0 < cs.cop ∧ 0 < cs.capacity_kw ∧ 0 ≤ cs.current_load_kw))

def ConfigValid (c : DataCenterConfig) : Prop :=
  0 < c.total_power_capacity_mw ∧ 0 < c.energy_cost_per_kwh
    ∧ 0 ≤ c.carbon_intensity_gco2_per_kwh
    ∧ 0 ≤ c.renewable_percentage ∧ c.renewable_percentage ≤ 1
    ∧ 1 < c.pue_target

instance : DecidablePred ConfigValid := fun c =>
  inferInstanceAs (Decidable (0 < c.total_power_capacity_mw ∧ 0 < c.energy_cost_per_kwh
    ∧ 0 ≤ c.carbon_intensity_gco2_per_kwh
    ∧ 0 ≤ c.renewable_percentage ∧ c.renewable_percentage ≤ 1
    ∧ 1 < c.pue_target))

/-- A structurally valid snapshot: every pydantic range constraint holds. -/
def Valid (dc : DataCenter) : Prop :=
  ConfigValid dc.config
    ∧ (∀ s ∈ dc.servers, ServerValid s)
    ∧ (∀ r ∈ dc.racks, RackValid r)
    ∧ (∀ w ∈ dc.workloads, WorkloadValid w)
    ∧ (∀ r ∈ dc.energy_readings, ReadingValid r)
    ∧ (∀ cs ∈ dc.cooling_systems, CoolingValid cs)

instance : DecidablePred Valid := fun dc =>
  inferInstanceAs (Decidable (ConfigValid dc.config
    ∧ (∀ s ∈ dc.servers, ServerValid s)
    ∧ (∀ r ∈ dc.racks, RackValid r)
    ∧ (∀ w ∈ dc.workloads, WorkloadValid w)
    ∧ (∀ r ∈ dc.energy_readings, ReadingValid r)
    ∧ (∀ cs ∈ dc.cooling_systems, CoolingValid cs)))

/-- Scores of the sub-metrics of a box carrying a given display name. -/
def subScoresByName (b : BoxScore) (nm : String) : List ℚ :=
  (b.sub_metrics.filter fun m => m.name = nm).map SubMetricScore.score

/-! ## Concrete snapshots used by witnesses and counterexamples -/

/-- A valid configuration: $0.10/kWh, 1 MW, 400 gCO2/kWh, 0% renewable,
no PPA, PUE target 1.4. -/
def cfgA : DataCenterConfig :=
  { name := "dc-a", total_power_capacity_mw := 1, energy_cost_per_kwh := 1/10,
    carbon_intensity_gco2_per_kwh := 400, renewable_percentage := 0,
    ppa_available := false, pue_target := 14/10 }

/-- A zombie-flagged server drawing 100 W. -/
def srvZombie : Server :=
  { name := "z", server_type := ServerType.cpu, tdp_watts := 200,
    current_power_watts := 100, cpu_utilization := 1/2, gpu_utilization := 0,
    memory_utilization := 1/2, age_months := 12, warranty_months := 36,
    is_zombie := true, is_overprovisioned := false }

/-- The spec's concrete scenario: ten servers all flagged `is_zombie`,
each drawing 100 W, at $0.10/kWh. -/
def dcZombie10 : DataCenter :=
  { config := cfgA, servers := List.replicate 10 srvZombie, racks := [],
    workloads := [], energy_readings := [], cooling_systems := [] }

/-- The empty fleet over a given configuration. -/
def emptyFleet (cfg : DataCenterConfig) : DataCenter :=
  { config := cfg, servers := [], racks := [], workloads := [],
    energy_readings := [], cooling_systems := [] }

/-- The empty fleet over `cfgA` (0% renewable, no PPA, no readings). -/
def dcEmptyA : DataCenter := emptyFleet cfgA

/-- Like `cfgA` but fully renewable, so the renewable candidate never
triggers. -/
def cfgB : DataCenterConfig :=
  { name := "dc-b", total_power_capacity_mw := 1, energy_cost_per_kwh := 1/10,
    carbon_intensity_gco2_per_kwh := 400, renewable_percentage := 1,
    ppa_available := false, pue_target := 14/10 }

/-- A server that is not flagged a zombie but idles at 1% CPU. -/
def srvLowUtil : Server :=
  { name := "idle", server_type := ServerType.cpu, tdp_watts := 400,
    current_power_watts := 200, cpu_utilization := 1/100, gpu_utilization := 0,
    memory_utilization := 1/10, age_months := 12, warranty_months := 36,
    is_zombie := false, is_overprovisioned := false }

/-- One unflagged low-utilization server, fully renewable config. -/
def dcLowUtil : DataCenter :=
  { config := cfgB, servers := [srvLowUtil], racks := [], workloads := [],
    energy_readings := [], cooling_systems := [] }

/-- A renewable-advisor output with PPA savings of $5/month and a
0.03-ton monthly carbon reduction. -/
def renewD0 : RenewableData :=
  { current_renewable_pct := 0, ppa_available := true, current_carbon_intensity := 400,
    potential_carbon_reduction_tons_monthly := 3/100, renewable_opportunity_score := 100,
    estimated_cost_impact_monthly := -5 }

/-! ## Claim C2: zero-impact candidates are not filtered -/

/-- The renewable recommendation produced for `dcEmptyA`: zero dollars
and zero kWh, yet present in the output. -/
def renewZeroRec : Recommendation :=
  { rank := 1, box_number := 3, title := "Increase Renewable Energy Adoption",
    monthly_savings_dollars := 0, monthly_energy_savings_kwh := 0,
    effort := "medium", impact := "high" }

/-! ## Claim C4: ordering, ranks, truncation -/

/-- Position of a recommendation category in generation order, keyed by
its (unique) template title. -/
def catOrder (t : String) : ℕ :=
  if t = ZOMBIE_DECOMMISSION.title then 0
  else if t = OVERPROVISIONED_RIGHTSIZING.title then 1
  else if t = LEGACY_HARDWARE_REFRESH.title then 2
  else if t = COOLING_UPGRADE.title then 3
  else if t = WORKLOAD_SCHEDULING.title then 4
  else if t = RENEWABLE_ENERGY.title then 5
  else if t = PUE_IMPROVEMENT.title then 6
  else if t = CAPACITY_PLANNING.title then 7
  else 8

/-- The strengthened sort invariant: strictly more dollars, or equal
dollars and earlier generation category. -/
def candQ (a b : Candidate) : Prop :=
  b.monthly_savings_dollars < a.monthly_savings_dollars
    ∨ (a.monthly_savings_dollars = b.monthly_savings_dollars
        ∧ catOrder a.title < catOrder b.title)

/-- The eight category candidates in generation order, ignoring triggers. -/
def masterCandidates (dc : DataCenter) : List Candidate :=
  [RecommendationEngine.zombieCandidate dc, RecommendationEngine.rightsizingCandidate dc,
    RecommendationEngine.refreshCandidate dc, RecommendationEngine.coolingCandidate dc,
    RecommendationEngine.schedulingCandidate dc, RecommendationEngine.renewableCandidate dc,
    RecommendationEngine.pueCandidate dc, RecommendationEngine.capacityCandidate dc]

/-- A constant hourly reading: 100 kW facility, 80 kW IT. -/
def reading0 : EnergyReading :=
  { timestamp := 0, total_facility_power_kw := 100, it_equipment_power_kw := 80,
    cooling_power_kw := 15, lighting_power_kw := 3, ups_loss_kw := 2 }

/-- Two days of perfectly flat readings over `cfgA`. -/
def dc48 : DataCenter :=
  { config := cfgA, servers := [], racks := [], workloads := [],
    energy_readings := List.replicate 48 reading0, cooling_systems := [] }

theorem rhe_intCast (k : ℤ) : rhe (k : ℚ) = k := by
  unfold rhe
  norm_num

theorem floor_le_rhe (x : ℚ) : ⌊x⌋ ≤ rhe x := by
  unfold rhe
  split_ifs <;> omega

theorem rhe_le_of_le_intCast {x : ℚ} {k : ℤ} (h : x ≤ (k : ℚ)) : rhe x ≤ k := by
  unfold rhe
  split_ifs with h1 h2 h3
  · have h2 : ⌊x⌋ ≤ ⌊(k : ℚ)⌋ := Int.floor_le_floor h
    simpa using h2
  · have hx : (⌊x⌋ : ℚ) + 1/2 ≤ x := by
      have := not_lt.mp h1
      linarith
    have : (⌊x⌋ : ℚ) < (k : ℚ) := by linarith
    have hk : ⌊x⌋ < k := by exact_mod_cast this
    omega
  · have hx : (⌊x⌋ : ℚ) + 1/2 ≤ x := by
      have := not_lt.mp h1
      linarith
    have : (⌊x⌋ : ℚ) < (k : ℚ) := by linarith
    have hk : ⌊x⌋ < k := by exact_mod_cast this
    omega
  · have hx : (⌊x⌋ : ℚ) + 1/2 ≤ x := by
      have := not_lt.mp h1
      linarith
    have : (⌊x⌋ : ℚ) < (k : ℚ) := by linarith
    have hk : ⌊x⌋ < k := by exact_mod_cast this
    omega

theorem intCast_le_rhe {x : ℚ} {k : ℤ} (h : (k : ℚ) ≤ x) : k ≤ rhe x := by
  have h1 : k ≤ ⌊x⌋ := Int.le_floor.mpr h
  have h2 := floor_le_rhe x
  omega

theorem roundTo_le_intCast {x : ℚ} {k : ℤ} (n : ℕ) (h : x ≤ (k : ℚ)) :
    roundTo n x ≤ (k : ℚ) := by
  unfold roundTo
  have hp : (0 : ℚ) < 10 ^ n := by positivity
  rw [div_le_iff₀ hp]
  have hx : x * 10 ^ n ≤ ((k * 10 ^ n : ℤ) : ℚ) := by
    push_cast
    nlinarith
  have := rhe_le_of_le_intCast hx
  calc (rhe (x * 10 ^ n) : ℚ) ≤ ((k * 10 ^ n : ℤ) : ℚ) := by exact_mod_cast this
    _ = (k : ℚ) * 10 ^ n := by push_cast; ring

theorem intCast_le_roundTo {x : ℚ} {k : ℤ} (n : ℕ) (h : (k : ℚ) ≤ x) :
    (k : ℚ) ≤ roundTo n x := by
  unfold roundTo
  have hp : (0 : ℚ) < 10 ^ n := by positivity
  rw [le_div_iff₀ hp]
  have hx : ((k * 10 ^ n : ℤ) : ℚ) ≤ x * 10 ^ n := by
    push_cast
    nlinarith
  have := intCast_le_rhe hx
  calc (k : ℚ) * 10 ^ n = ((k * 10 ^ n : ℤ) : ℚ) := by push_cast; ring
    _ ≤ (rhe (x * 10 ^ n) : ℚ) := by exact_mod_cast this

theorem roundTo_nonneg {x : ℚ} (n : ℕ) (h : 0 ≤ x) : 0 ≤ roundTo n x := by
  have := intCast_le_roundTo (x := x) (k := 0) n (by exact_mod_cast h)
  exact_mod_cast this

theorem roundTo_le_hundred {x : ℚ} (n : ℕ) (h : x ≤ 100) : roundTo n x ≤ 100 := by
  have := roundTo_le_intCast (x := x) (k := 100) n (by exact_mod_cast h)
  exact_mod_cast this

/-- A rational with at most `n` decimal digits is a fixed point of `roundTo n`. -/
theorem roundTo_eq_self_of_den {x : ℚ} {n : ℕ} (m : ℤ) (hm : x = (m : ℚ) / 10 ^ n) :
    roundTo n x = x := by
  have hp : (10 : ℚ) ^ n ≠ 0 := by positivity
  have hx : x * 10 ^ n = (m : ℚ) := by
    rw [hm, div_mul_cancel₀ _ hp]
  unfold roundTo
  rw [hx, rhe_intCast, ← hm]

/-- Conversely a fixed point of `roundTo n` has at most `n` decimal digits. -/
theorem den_of_roundTo_eq_self {x : ℚ} {n : ℕ} (h : roundTo n x = x) :
    ∃ m : ℤ, x = (m : ℚ) / 10 ^ n := by
  refine ⟨rhe (x * 10 ^ n), ?_⟩
  conv_lhs => rw [← h]
  rfl

theorem length_sIns {α : Type} (lt : α → α → Prop) [DecidableRel lt] (x : α) :
    ∀ l : List α, (sIns lt x l).length = l.length + 1 := by
  intro l
  induction l with
  | nil => rfl
  | cons y ys ih =>
    unfold sIns
    split_ifs
    · rfl
    · simpa using ih

theorem length_sSort {α : Type} (lt : α → α → Prop) [DecidableRel lt] (l : List α) :
    (sSort lt l).length = l.length := by
  suffices h : ∀ (l acc : List α),
      (l.foldl (fun acc x => sIns lt x acc) acc).length = acc.length + l.length by
    simpa using h l []
  intro l
  induction l with
  | nil => intro acc; simp
  | cons x xs ih =>
    intro acc
    simp only [List.foldl_cons]
    rw [ih (sIns lt x acc), length_sIns]
    simp only [List.length_cons]
    omega

theorem mem_sIns {α : Type} (lt : α → α → Prop) [DecidableRel lt] (x a : α) :
    ∀ l : List α, a ∈ sIns lt x l ↔ a = x ∨ a ∈ l := by
  intro l
  induction l with
  | nil => simp [sIns]
  | cons y ys ih =>
    unfold sIns
    split_ifs
    · simp
    · simp only [List.mem_cons, ih]
      tauto

theorem mem_sSort {α : Type} (lt : α → α → Prop) [DecidableRel lt] (a : α) (l : List α) :
    a ∈ sSort lt l ↔ a ∈ l := by
  suffices h : ∀ (l acc : List α),
      (a ∈ l.foldl (fun acc x => sIns lt x acc) acc ↔ a ∈ acc ∨ a ∈ l) by
    simpa using h l []
  intro l
  induction l with
  | nil => intro acc; simp
  | cons x xs ih =>
    intro acc
    simp only [List.foldl_cons]
    rw [ih (sIns lt x acc), mem_sIns]
    simp only [List.mem_cons]
    tauto

/-! ## Claim C5: grade boundaries and monotonicity -/

/-- C5: `score_to_grade` uses exact inclusive lower bounds A ≥ 85,
B ≥ 70, C ≥ 55, D ≥ 40, else F; the eight boundary probes land as the
spec says; and the map is monotone (a higher score never gets a worse
grade). -/
theorem C5_score_to_grade_boundaries_and_monotone :
    (∀ s : ℚ, 85 ≤ s → score_to_grade s = Grade.A)
    ∧ (∀ s : ℚ, 70 ≤ s → s < 85 → score_to_grade s = Grade.B)
    ∧ (∀ s : ℚ, 55 ≤ s → s < 70 → score_to_grade s = Grade.C)
    ∧ (∀ s : ℚ, 40 ≤ s → s < 55 → score_to_grade s = Grade.D)
    ∧ (∀ s : ℚ, s < 40 → score_to_grade s = Grade.F)
    ∧ score_to_grade 85 = Grade.A ∧ score_to_grade (84999/1000) = Grade.B
    ∧ score_to_grade 70 = Grade.B ∧ score_to_grade (69999/1000) = Grade.C
    ∧ score_to_grade 55 = Grade.C ∧ score_to_grade (54999/1000) = Grade.D
    ∧ score_to_grade 40 = Grade.D ∧ score_to_grade (39999/1000) = Grade.F
    ∧ (∀ s1 s2 : ℚ, s1 ≤ s2 →
        gradeRank (score_to_grade s1) ≤ gradeRank (score_to_grade s2)) := by
  refine ⟨?_, ?_, ?_, ?_, ?_, ?_, ?_, ?_, ?_, ?_, ?_, ?_, ?_, ?_⟩
  · intro s h
    simp only [score_to_grade, GRADE_A_MIN, GRADE_B_MIN, GRADE_C_MIN, GRADE_D_MIN]
    split_ifs <;> first | rfl | linarith
  · intro s h1 h2
    simp only [score_to_grade, GRADE_A_MIN, GRADE_B_MIN, GRADE_C_MIN, GRADE_D_MIN]
    split_ifs <;> first | rfl | linarith
  · intro s h1 h2
    simp only [score_to_grade, GRADE_A_MIN, GRADE_B_MIN, GRADE_C_MIN, GRADE_D_MIN]
    split_ifs <;> first | rfl | linarith
  · intro s h1 h2
    simp only [score_to_grade, GRADE_A_MIN, GRADE_B_MIN, GRADE_C_MIN, GRADE_D_MIN]
    split_ifs <;> first | rfl | linarith
  · intro s h
    simp only [score_to_grade, GRADE_A_MIN, GRADE_B_MIN, GRADE_C_MIN, GRADE_D_MIN]
    split_ifs <;> first | rfl | linarith
  · norm_num [score_to_grade, GRADE_A_MIN, GRADE_B_MIN, GRADE_C_MIN, GRADE_D_MIN]
  · norm_num [score_to_grade, GRADE_A_MIN, GRADE_B_MIN, GRADE_C_MIN, GRADE_D_MIN]
  · norm_num [score_to_grade, GRADE_A_MIN, GRADE_B_MIN, GRADE_C_MIN, GRADE_D_MIN]
  · norm_num [score_to_grade, GRADE_A_MIN, GRADE_B_MIN, GRADE_C_MIN, GRADE_D_MIN]
  · norm_num [score_to_grade, GRADE_A_MIN, GRADE_B_MIN, GRADE_C_MIN, GRADE_D_MIN]
  · norm_num [score_to_grade, GRADE_A_MIN, GRADE_B_MIN, GRADE_C_MIN, GRADE_D_MIN]
  · norm_num [score_to_grade, GRADE_A_MIN, GRADE_B_MIN, GRADE_C_MIN, GRADE_D_MIN]
  · norm_num [score_to_grade, GRADE_A_MIN, GRADE_B_MIN, GRADE_C_MIN, GRADE_D_MIN]
  · intro s1 s2 h
    simp only [score_to_grade, GRADE_A_MIN, GRADE_B_MIN, GRADE_C_MIN, GRADE_D_MIN]
    split_ifs <;> simp [gradeRank] <;> linarith

/-! ## Claim C6: the top-level score formula -/

/-- C6: `ScoringEngine.score` returns the three pillar `BoxScore`s, the
overall score `round(box1 × 0.40 + box2 × 0.30 + box3 × 0.30, 2)`, and
its grade; it is a pure function of the snapshot. -/
theorem C6_scoring_engine_formula (dc : DataCenter) :
    ScoringEngine.score dc =
      (score_box1 dc, score_box2 dc, score_box3 dc,
        roundTo 2 ((score_box1 dc).overall_score * (40/100)
          + (score_box2 dc).overall_score * (30/100)
          + (score_box3 dc).overall_score * (30/100)),
        score_to_grade (roundTo 2 ((score_box1 dc).overall_score * (40/100)
          + (score_box2 dc).overall_score * (30/100)
          + (score_box3 dc).overall_score * (30/100)))) := rfl

/-! ## Claim C7: empty-fleet fallbacks -/

/-- C7: on the empty-fleet snapshot (no servers, racks, workloads,
readings or cooling systems) scoring is total and the documented
fallbacks hold for every configuration: Box 2 zombie and
over-provisioned scores are 100, Box 1 PUE score is 0, Box 1 cooling
and availability scores are 50. -/
theorem C7_empty_fleet_fallbacks (cfg : DataCenterConfig) :
    subScoresByName (score_box2 (emptyFleet cfg)) "Zombie Servers" = [100]
    ∧ subScoresByName (score_box2 (emptyFleet cfg)) "Over-Provisioned Resources" = [100]
    ∧ subScoresByName (score_box1 (emptyFleet cfg)) "PUE Efficiency" = [0]
    ∧ subScoresByName (score_box1 (emptyFleet cfg)) "Cooling Performance" = [50]
    ∧ subScoresByName (score_box1 (emptyFleet cfg)) "Operational Availability" = [50] :=
  ⟨rfl, rfl, rfl, rfl, rfl⟩

/-! ## Additional rounding helpers -/

theorem roundTo_zero (n : ℕ) : roundTo n 0 = 0 :=
  roundTo_eq_self_of_den (x := 0) (n := n) 0 (by norm_num)

theorem roundTo_intCast (n : ℕ) (k : ℤ) : roundTo n (k : ℚ) = k := by
  refine roundTo_eq_self_of_den (k * 10 ^ n) ?_
  have hp : (10 : ℚ) ^ n ≠ 0 := by positivity
  field_simp

/-! ## Claim C9: renewable impact calculator -/

/-- C9: for inputs already rounded to cents (as the renewable advisor
produces), `calculate_renewable_impact` returns `(|cost|, tons × 2000)`
for a negative cost impact and `(0, tons × 2000)` otherwise; its dollar
component is never negative, and the kWh component is nonzero whenever
the carbon-reduction estimate is nonzero. -/
theorem C9_renewable_impact_shape (d : RenewableData)
    (hc : roundTo 2 d.estimated_cost_impact_monthly = d.estimated_cost_impact_monthly)
    (ht : roundTo 2 d.potential_carbon_reduction_tons_monthly
      = d.potential_carbon_reduction_tons_monthly) :
    calculate_renewable_impact d =
      ((if d.estimated_cost_impact_monthly < 0 then |d.estimated_cost_impact_monthly| else 0),
        d.potential_carbon_reduction_tons_monthly * 2000)
    ∧ 0 ≤ (calculate_renewable_impact d).1
    ∧ (d.potential_carbon_reduction_tons_monthly ≠ 0 →
        (calculate_renewable_impact d).2 ≠ 0) := by
  obtain ⟨m, hm⟩ := den_of_roundTo_eq_self hc
  obtain ⟨k, hk⟩ := den_of_roundTo_eq_self ht
  have h2000 : roundTo 2 (d.potential_carbon_reduction_tons_monthly * 2000)
      = d.potential_carbon_reduction_tons_monthly * 2000 := by
    refine roundTo_eq_self_of_den (2000 * k) ?_
    rw [hk]
    push_cast
    ring
  have habs : roundTo 2 |d.estimated_cost_impact_monthly| = |d.estimated_cost_impact_monthly| := by
    refine roundTo_eq_self_of_den |m| ?_
    rw [hm, abs_div]
    push_cast [abs_of_pos]
    norm_num
  have hmain : calculate_renewable_impact d =
      ((if d.estimated_cost_impact_monthly < 0 then |d.estimated_cost_impact_monthly| else 0),
        d.potential_carbon_reduction_tons_monthly * 2000) := by
    unfold calculate_renewable_impact
    by_cases hneg : d.estimated_cost_impact_monthly < 0
    · simp only [if_pos hneg, habs, h2000]
    · simp only [if_neg hneg, roundTo_zero, h2000]
  refine ⟨hmain, ?_, ?_⟩
  · rw [hmain]
    by_cases hneg : d.estimated_cost_impact_monthly < 0
    · simp only [if_pos hneg]
      exact abs_nonneg _
    · simp [if_neg hneg]
  · intro ht0
    rw [hmain]
    simp only
    exact mul_ne_zero ht0 (by norm_num)

/-- Witness for C9 at `renewD0`. -/
theorem C9_renewable_impact_shape_witness :
    calculate_renewable_impact renewD0 =
      ((if renewD0.estimated_cost_impact_monthly < 0
          then |renewD0.estimated_cost_impact_monthly| else 0),
        renewD0.potential_carbon_reduction_tons_monthly * 2000)
    ∧ 0 ≤ (calculate_renewable_impact renewD0).1
    ∧ (renewD0.potential_carbon_reduction_tons_monthly ≠ 0 →
        (calculate_renewable_impact renewD0).2 ≠ 0) :=
  C9_renewable_impact_shape renewD0
    (roundTo_eq_self_of_den (-500) (by norm_num [renewD0]))
    (roundTo_eq_self_of_den 3 (by norm_num [renewD0]))

/-! ## Claim C10: zombie detection beyond the flag -/

unseal Rat.mul Rat.add Rat.sub Rat.inv in
/-- C10: `detect_zombies` classifies a server as a zombie when the flag
is set, and also whenever CPU utilization is below 5% on a server not
marked overprovisioned; consequently a snapshot with no flagged zombies
still yields the zombie-decommission recommendation, whose totals come
from the low-utilization server (here 200 W → 144 kWh, $14.40/month). -/
theorem C10_low_utilization_zombies :
    (∀ s : Server, s.is_zombie = true → isZombie s = true)
    ∧ (∀ s : Server, s.cpu_utilization < 5/100 → s.is_overprovisioned = false →
        isZombie s = true)
    ∧ (∀ s ∈ dcLowUtil.servers, s.is_zombie = false)
    ∧ (RecommendationEngine.generate dcLowUtil).map
        (fun r => (r.title, r.monthly_savings_dollars, r.monthly_energy_savings_kwh))
      = [(ZOMBIE_DECOMMISSION.title, 72/5, 144)] := by
  refine ⟨?_, ?_, ?_, ?_⟩
  · intro s h
    simp [isZombie, h]
  · intro s h1 h2
    simp [isZombie, h2, decide_eq_true h1]
  · intro s hs
    simp only [dcLowUtil, List.mem_singleton] at hs
    rw [hs]
    rfl
  · decide

/-! ## Claim C1: the ten-zombie concrete scenario -/

/-- Per-entry waste of a 100 W zombie at $0.10/kWh, summed over a fleet:
72 kWh and $7.20 each. -/
theorem zombie_sums (l : List Server) (hall : ∀ s ∈ l, s.current_power_watts = 100) :
    ((l.map (mkZombieEntry (1/10))).map ZombieEntry.monthly_waste_kwh).sum = 72 * l.length
    ∧ ((l.map (mkZombieEntry (1/10))).map ZombieEntry.monthly_waste_dollars).sum
      = 36/5 * l.length := by
  induction l with
  | nil => simp
  | cons s ss ih =>
    have hs : s.current_power_watts = 100 := hall s (by simp)
    have ihh := ih fun t ht => hall t (by simp [ht])
    have e1 : (mkZombieEntry (1/10) s).monthly_waste_kwh
        = roundTo 2 (s.current_power_watts * 24 * 30 / 1000) := rfl
    have e2 : (mkZombieEntry (1/10) s).monthly_waste_dollars
        = roundTo 2 (s.current_power_watts * 24 * 30 / 1000 * (1/10)) := rfl
    have h72 : roundTo 2 (72 : ℚ) = 72 := by
      have h := roundTo_intCast 2 72
      norm_num at h
      exact h
    have h720 : roundTo 2 (36/5 : ℚ) = 36/5 := roundTo_eq_self_of_den 720 (by norm_num)
    constructor
    · simp only [List.map_cons, List.sum_cons, List.length_cons]
      rw [ihh.1, e1, hs]
      have harg : (100 : ℚ) * 24 * 30 / 1000 = 72 := by norm_num
      rw [harg, h72]
      push_cast
      ring
    · simp only [List.map_cons, List.sum_cons, List.length_cons]
      rw [ihh.2, e2, hs]
      have harg : (100 : ℚ) * 24 * 30 / 1000 * (1/10) = 36/5 := by norm_num
      rw [harg, h720]
      push_cast
      ring

unseal Rat.mul Rat.add Rat.sub Rat.inv in
/-- C1 counterexample: on the spec's own scenario (ten flagged zombies at
100 W each, $0.10/kWh) the Box 2 zombie sub-metric score is 0 as claimed,
but the total recommended monthly zombie savings is $72.00, not the
claimed $720.00 (720 is the monthly kWh figure). -/
theorem C1_spec_total_counterexample :
    subScoresByName (score_box2 dcZombie10) "Zombie Servers" = [0]
    ∧ (calculate_zombie_impact (detect_zombies dcZombie10) dcZombie10.config).1 = 72
    ∧ ¬ (calculate_zombie_impact (detect_zombies dcZombie10) dcZombie10.config).1 = 720 := by
  decide

/-- C1 amended: for every snapshot with ten servers, all flagged
`is_zombie` and drawing 100 W, at $0.10/kWh, the Box 2 zombie sub-metric
score is 0 and the zombie-decommission impact is $72.00/month dollars and
720 kWh/month. -/
theorem C1_amended_zombie_scenario (dc : DataCenter)
    (hn : dc.servers.length = 10)
    (hall : ∀ s ∈ dc.servers, s.is_zombie = true ∧ s.current_power_watts = 100)
    (hcost : dc.config.energy_cost_per_kwh = 1/10) :
    subScoresByName (score_box2 dc) "Zombie Servers" = [0]
    ∧ calculate_zombie_impact (detect_zombies dc) dc.config = (72, 720) := by
  have hzfilter : dc.servers.filter (fun s => s.is_zombie) = dc.servers := by
    rw [List.filter_eq_self]
    intro a ha
    simp [(hall a ha).1]
  have hfilter : dc.servers.filter isZombie = dc.servers := by
    rw [List.filter_eq_self]
    intro a ha
    simp [isZombie, (hall a ha).1]
  constructor
  · have hsub : subScoresByName (score_box2 dc) "Zombie Servers" = [(scoreZombie dc).2] := rfl
    rw [hsub]
    have hsc : (scoreZombie dc).2 = 0 := by
      have ht : dc.total_servers = 10 := by
        simp [DataCenter.total_servers, hn]
      have hz : dc.zombie_count = 10 := by
        simp [DataCenter.zombie_count, hzfilter, hn]
      unfold scoreZombie
      rw [ht, hz]
      rw [if_neg (by norm_num)]
      simp only []
      push_cast
      have hval : (100 : ℚ) - 10 / 10 * 500 = -400 := by norm_num
      have hm : max (0 : ℚ) (-400) = 0 := max_eq_left (by norm_num)
      rw [hval, hm, roundTo_zero]
    rw [hsc]
  · unfold calculate_zombie_impact detect_zombies
    rw [hfilter, hcost]
    obtain ⟨hk, hd⟩ := zombie_sums dc.servers fun s hs => (hall s hs).2
    simp only [hk, hd, hn]
    have h1 : (36/5 : ℚ) * (10 : ℕ) = 72 := by push_cast; ring
    have h2 : (72 : ℚ) * (10 : ℕ) = 720 := by push_cast; ring
    rw [h1, h2]
    have r1 : roundTo 2 (72 : ℚ) = 72 := by
      have h := roundTo_intCast 2 72
      norm_num at h
      exact h
    have r2 : roundTo 2 (720 : ℚ) = 720 := by
      have h := roundTo_intCast 2 720
      norm_num at h
      exact h
    rw [r1, r2]

unseal Rat.mul Rat.add Rat.sub Rat.inv in
/-- Witness for the amended C1 at the concrete ten-zombie snapshot. -/
theorem C1_amended_zombie_scenario_witness :
    subScoresByName (score_box2 dcZombie10) "Zombie Servers" = [0]
    ∧ calculate_zombie_impact (detect_zombies dcZombie10) dcZombie10.config = (72, 720) :=
  C1_amended_zombie_scenario dcZombie10 (by decide) (by decide) (by decide)

unseal Rat.mul Rat.add Rat.sub Rat.inv in
/-- C2 counterexample: `generate` on the empty snapshot over `cfgA`
(0% renewable, no PPA, no readings) returns a recommendation whose
dollar and kWh savings are both zero — the engine does not filter
zero-impact candidates. -/
theorem C2_zero_impact_counterexample :
    renewZeroRec ∈ RecommendationEngine.generate dcEmptyA
    ∧ renewZeroRec.monthly_savings_dollars = 0
    ∧ renewZeroRec.monthly_energy_savings_kwh = 0 := by
  decide

/-! ## Claim C3: every score lies in [0, 100] -/

theorem clamp_bounds (t : ℚ) : 0 ≤ max 0 (min 100 t) ∧ max 0 (min 100 t) ≤ 100 :=
  ⟨le_max_left 0 _, max_le (by norm_num) (min_le_left _ _)⟩

theorem roundTo_clamp (n : ℕ) {x : ℚ} (h0 : 0 ≤ x) (h1 : x ≤ 100) :
    0 ≤ roundTo n x ∧ roundTo n x ≤ 100 :=
  ⟨roundTo_nonneg n h0, roundTo_le_hundred n h1⟩

theorem scorePue_bounds (dc : DataCenter) :
    0 ≤ (scorePue dc).2 ∧ (scorePue dc).2 ≤ 100 := by
  unfold scorePue
  simp only []
  split_ifs with h
  · norm_num
  · exact roundTo_clamp 2 (clamp_bounds _).1 (clamp_bounds _).2

theorem utilComponentScore_bounds (avg target thr : ℚ) :
    0 ≤ utilComponentScore avg target thr ∧ utilComponentScore avg target thr ≤ 100 := by
  unfold utilComponentScore
  simp only []
  split_ifs with h
  · refine ⟨le_max_left 0 _, max_le (by norm_num) ?_⟩
    have h1 := (clamp_bounds (avg / target * 100)).2
    nlinarith
  · exact clamp_bounds _

theorem scoreUtilization_bounds (dc : DataCenter) :
    0 ≤ (scoreUtilization dc).2 ∧ (scoreUtilization dc).2 ≤ 100 := by
  obtain ⟨hc0, hc1⟩ := utilComponentScore_bounds dc.avg_cpu_utilization UTIL_TARGET_CPU (9/10)
  obtain ⟨hg0, hg1⟩ := utilComponentScore_bounds dc.avg_gpu_utilization UTIL_TARGET_GPU (19/20)
  unfold scoreUtilization
  simp only []
  split_ifs
  · norm_num
  · exact roundTo_clamp 2 (by nlinarith) (by nlinarith)
  · exact roundTo_clamp 2 (by nlinarith) (by nlinarith)
  · exact roundTo_clamp 2 (by nlinarith) (by nlinarith)
  · exact roundTo_clamp 2 (by nlinarith) (by nlinarith)

theorem scoreCost_bounds (dc : DataCenter) :
    0 ≤ (scoreCost dc).2 ∧ (scoreCost dc).2 ≤ 100 := by
  unfold scoreCost
  simp only []
  split_ifs with h
  · norm_num
  · exact roundTo_clamp 2 (clamp_bounds _).1 (clamp_bounds _).2

theorem scoreCooling_bounds (dc : DataCenter) :
    0 ≤ (scoreCooling dc).2 ∧ (scoreCooling dc).2 ≤ 100 := by
  unfold scoreCooling
  simp only []
  split_ifs with h hbm
  · norm_num
  · exact roundTo_clamp 2 (clamp_bounds _).1 (clamp_bounds _).2
  · exact roundTo_clamp 2 (clamp_bounds _).1 (clamp_bounds _).2

theorem scoreAvailability_bounds (dc : DataCenter) :
    0 ≤ (scoreAvailability dc).2 ∧ (scoreAvailability dc).2 ≤ 100 := by
  unfold scoreAvailability
  simp only []
  split_ifs with h h1 h2
  · norm_num
  · exact roundTo_clamp 2 (by norm_num) (by norm_num)
  · exact roundTo_clamp 2 (by norm_num) (by norm_num)
  · rw [not_le] at h1
    rw [not_lt] at h2
    exact roundTo_clamp 2 (by nlinarith) (by nlinarith)

theorem scoreCarbon_bounds (dc : DataCenter) :
    0 ≤ (scoreCarbon dc).2 ∧ (scoreCarbon dc).2 ≤ 100 :=
  roundTo_clamp 2 (clamp_bounds _).1 (clamp_bounds _).2

theorem sub_waste_bounds {q : ℚ} (hq : 0 ≤ q) :
    0 ≤ max 0 (100 - q) ∧ max 0 (100 - q) ≤ 100 :=
  ⟨le_max_left 0 _, max_le (by norm_num) (by linarith)⟩

theorem natDiv_nonneg (a b : ℕ) : 0 ≤ (a : ℚ) / (b : ℚ) :=
  div_nonneg (Nat.cast_nonneg a) (Nat.cast_nonneg b)

theorem scoreZombie_bounds (dc : DataCenter) :
    0 ≤ (scoreZombie dc).2 ∧ (scoreZombie dc).2 ≤ 100 := by
  unfold scoreZombie
  simp only []
  split_ifs with h
  · norm_num
  · have hq : 0 ≤ ((dc.zombie_count : ℚ) / (dc.total_servers : ℚ)) * 500 := by
      have := natDiv_nonneg dc.zombie_count dc.total_servers
      linarith
    exact roundTo_clamp 2 (sub_waste_bounds hq).1 (sub_waste_bounds hq).2

theorem scoreOverprovisioned_bounds (dc : DataCenter) :
    0 ≤ (scoreOverprovisioned dc).2 ∧ (scoreOverprovisioned dc).2 ≤ 100 := by
  unfold scoreOverprovisioned
  simp only []
  split_ifs with h
  · norm_num
  · have hq : 0 ≤ ((dc.overprovisioned_count : ℚ) / (dc.total_servers : ℚ)) * 400 := by
      have := natDiv_nonneg dc.overprovisioned_count dc.total_servers
      linarith
    exact roundTo_clamp 2 (sub_waste_bounds hq).1 (sub_waste_bounds hq).2

theorem scoreLegacy_bounds (dc : DataCenter) :
    0 ≤ (scoreLegacy dc).2 ∧ (scoreLegacy dc).2 ≤ 100 := by
  unfold scoreLegacy
  simp only []
  split_ifs with h
  · norm_num
  · simp only []
    have h1 := natDiv_nonneg
      (dc.servers.filter fun s => s.warranty_months < s.age_months).length dc.total_servers
    have h2 := natDiv_nonneg
      (dc.servers.filter fun s => USEFUL_LIFE_MONTHS < s.age_months).length dc.total_servers
    refine roundTo_clamp 2 (le_max_left 0 _) (max_le (by norm_num) (by nlinarith))

theorem scoreCoolingWaste_bounds (dc : DataCenter) :
    0 ≤ (scoreCoolingWaste dc).2 ∧ (scoreCoolingWaste dc).2 ≤ 100 := by
  unfold scoreCoolingWaste
  simp only []
  split_ifs with h
  · norm_num
  · have hq : 0 ≤ ((dc.cooling_systems.filter fun cs =>
        85 < cs.load_pct ∨ cs.cop < box2CoolingBenchmark cs).length : ℚ)
        / (dc.cooling_systems.length : ℚ) * 200 := by
      have := natDiv_nonneg (dc.cooling_systems.filter fun cs =>
        85 < cs.load_pct ∨ cs.cop < box2CoolingBenchmark cs).length dc.cooling_systems.length
      linarith
    exact roundTo_clamp 2 (sub_waste_bounds hq).1 (sub_waste_bounds hq).2

theorem scoreStranded_bounds (dc : DataCenter) :
    0 ≤ (scoreStranded dc).2 ∧ (scoreStranded dc).2 ≤ 100 := by
  unfold scoreStranded
  simp only []
  split_ifs with h
  · norm_num
  · have hq : 0 ≤ ((dc.racks.filter fun r => r.power_utilization_pct < 30).length : ℚ)
        / (dc.racks.length : ℚ) * 300 := by
      have := natDiv_nonneg (dc.racks.filter fun r => r.power_utilization_pct < 30).length
        dc.racks.length
      linarith
    exact roundTo_clamp 2 (sub_waste_bounds hq).1 (sub_waste_bounds hq).2

theorem scoreForecast_bounds (dc : DataCenter) :
    0 ≤ (scoreForecast dc).2 ∧ (scoreForecast dc).2 ≤ 100 := by
  unfold scoreForecast
  simp only []
  split_ifs <;> first
    | exact roundTo_clamp 2 (by norm_num) (by norm_num)
    | norm_num

theorem scoreRefresh_bounds (dc : DataCenter) :
    0 ≤ (scoreRefresh dc).2 ∧ (scoreRefresh dc).2 ≤ 100 := by
  unfold scoreRefresh
  simp only []
  split_ifs <;> first
    | exact roundTo_clamp 2 (clamp_bounds _).1 (clamp_bounds _).2
    | norm_num

theorem scoreScheduling_bounds (dc : DataCenter)
    (hv : ∀ w ∈ dc.workloads, WorkloadValid w) :
    0 ≤ (scoreScheduling dc).2 ∧ (scoreScheduling dc).2 ≤ 100 := by
  have hpct : 0 ≤ ((dc.workloads.filter fun w => w.is_schedulable).length : ℚ)
      / (dc.workloads.length : ℚ) :=
    natDiv_nonneg _ _
  have hsched : 0 ≤ ((dc.workloads.filter fun w => w.is_schedulable).map
      Workload.power_consumption_kw).sum := by
    apply List.sum_nonneg
    intro x hx
    obtain ⟨w, hw, rfl⟩ := List.mem_map.mp hx
    exact hv w (List.mem_of_mem_filter hw)
  unfold scoreScheduling
  simp only []
  split_ifs with h h2
  · norm_num
  · have hppct : 0 ≤ ((dc.workloads.filter fun w => w.is_schedulable).map
        Workload.power_consumption_kw).sum / (dc.workloads.map Workload.power_consumption_kw).sum :=
      div_nonneg hsched (le_of_lt h2)
    exact roundTo_clamp 2 (le_min (by norm_num) (by nlinarith)) (min_le_left _ _)
  · exact roundTo_clamp 2 (le_min (by norm_num) (by nlinarith)) (min_le_left _ _)

theorem scoreRenewable_bounds (dc : DataCenter) (hv : ConfigValid dc.config) :
    0 ≤ (scoreRenewable dc).2 ∧ (scoreRenewable dc).2 ≤ 100 := by
  obtain ⟨-, -, -, hr0, hr1, -⟩ := hv
  unfold scoreRenewable
  simp only []
  split_ifs with h
  · refine roundTo_clamp 2 (le_min (by norm_num) (le_min (by norm_num) (by nlinarith)))
      (min_le_left _ _)
  · exact roundTo_clamp 2 (le_min (by norm_num) (by nlinarith)) (min_le_left _ _)

theorem scoreTrend_bounds (dc : DataCenter) :
    0 ≤ (scoreTrend dc).2 ∧ (scoreTrend dc).2 ≤ 100 := by
  unfold scoreTrend
  simp only []
  split_ifs <;> first
    | exact roundTo_clamp 2 (by norm_num) (by norm_num)
    | norm_num

theorem score_box1_overall_bounds (dc : DataCenter) :
    0 ≤ (score_box1 dc).overall_score ∧ (score_box1 dc).overall_score ≤ 100 := by
  have he : (score_box1 dc).overall_score = roundTo 2
      ((scorePue dc).2 * BOX1_PUE_WEIGHT + (scoreUtilization dc).2 * BOX1_UTILIZATION_WEIGHT
        + (scoreCost dc).2 * BOX1_COST_WEIGHT + (scoreCooling dc).2 * BOX1_COOLING_WEIGHT
        + (scoreAvailability dc).2 * BOX1_AVAILABILITY_WEIGHT
        + (scoreCarbon dc).2 * BOX1_CARBON_WEIGHT) := rfl
  obtain ⟨a0, a1⟩ := scorePue_bounds dc
  obtain ⟨b0, b1⟩ := scoreUtilization_bounds dc
  obtain ⟨c0, c1⟩ := scoreCost_bounds dc
  obtain ⟨d0, d1⟩ := scoreCooling_bounds dc
  obtain ⟨e0, e1⟩ := scoreAvailability_bounds dc
  obtain ⟨f0, f1⟩ := scoreCarbon_bounds dc
  rw [he]
  unfold BOX1_PUE_WEIGHT BOX1_UTILIZATION_WEIGHT BOX1_COST_WEIGHT BOX1_COOLING_WEIGHT
    BOX1_AVAILABILITY_WEIGHT BOX1_CARBON_WEIGHT
  exact roundTo_clamp 2 (by nlinarith) (by nlinarith)

theorem score_box2_overall_bounds (dc : DataCenter) :
    0 ≤ (score_box2 dc).overall_score ∧ (score_box2 dc).overall_score ≤ 100 := by
  have he : (score_box2 dc).overall_score = roundTo 2
      ((scoreZombie dc).2 * BOX2_ZOMBIE_WEIGHT + (scoreOverprovisioned dc).2 * BOX2_OVERPROV_WEIGHT
        + (scoreLegacy dc).2 * BOX2_LEGACY_WEIGHT
        + (scoreCoolingWaste dc).2 * BOX2_COOLING_WASTE_WEIGHT
        + (scoreStranded dc).2 * BOX2_STRANDED_WEIGHT) := rfl
  obtain ⟨a0, a1⟩ := scoreZombie_bounds dc
  obtain ⟨b0, b1⟩ := scoreOverprovisioned_bounds dc
  obtain ⟨c0, c1⟩ := scoreLegacy_bounds dc
  obtain ⟨d0, d1⟩ := scoreCoolingWaste_bounds dc
  obtain ⟨e0, e1⟩ := scoreStranded_bounds dc
  rw [he]
  unfold BOX2_ZOMBIE_WEIGHT BOX2_OVERPROV_WEIGHT BOX2_LEGACY_WEIGHT
    BOX2_COOLING_WASTE_WEIGHT BOX2_STRANDED_WEIGHT
  exact roundTo_clamp 2 (by nlinarith) (by nlinarith)

theorem score_box3_overall_bounds (dc : DataCenter)
    (hcfg : ConfigValid dc.config) (hw : ∀ w ∈ dc.workloads, WorkloadValid w) :
    0 ≤ (score_box3 dc).overall_score ∧ (score_box3 dc).overall_score ≤ 100 := by
  have he : (score_box3 dc).overall_score = roundTo 2
      ((scoreForecast dc).2 * BOX3_FORECAST_WEIGHT + (scoreRefresh dc).2 * BOX3_REFRESH_WEIGHT
        + (scoreScheduling dc).2 * BOX3_SCHEDULING_WEIGHT
        + (scoreRenewable dc).2 * BOX3_RENEWABLE_WEIGHT
        + (scoreTrend dc).2 * BOX3_TREND_WEIGHT) := rfl
  obtain ⟨a0, a1⟩ := scoreForecast_bounds dc
  obtain ⟨b0, b1⟩ := scoreRefresh_bounds dc
  obtain ⟨c0, c1⟩ := scoreScheduling_bounds dc hw
  obtain ⟨d0, d1⟩ := scoreRenewable_bounds dc hcfg
  obtain ⟨e0, e1⟩ := scoreTrend_bounds dc
  rw [he]
  unfold BOX3_FORECAST_WEIGHT BOX3_REFRESH_WEIGHT BOX3_SCHEDULING_WEIGHT
    BOX3_RENEWABLE_WEIGHT BOX3_TREND_WEIGHT
  exact roundTo_clamp 2 (by nlinarith) (by nlinarith)

/-- C3: for every structurally valid snapshot, every sub-metric score of
the three pillar scorers, every pillar `overall_score`, and the
top-level overall score of `ScoringEngine.score` lie in [0, 100]. -/
theorem C3_all_scores_in_range (dc : DataCenter) (hv : Valid dc) :
    (∀ m ∈ (score_box1 dc).sub_metrics, 0 ≤ m.score ∧ m.score ≤ 100)
    ∧ (∀ m ∈ (score_box2 dc).sub_metrics, 0 ≤ m.score ∧ m.score ≤ 100)
    ∧ (∀ m ∈ (score_box3 dc).sub_metrics, 0 ≤ m.score ∧ m.score ≤ 100)
    ∧ (0 ≤ (score_box1 dc).overall_score ∧ (score_box1 dc).overall_score ≤ 100)
    ∧ (0 ≤ (score_box2 dc).overall_score ∧ (score_box2 dc).overall_score ≤ 100)
    ∧ (0 ≤ (score_box3 dc).overall_score ∧ (score_box3 dc).overall_score ≤ 100)
    ∧ (0 ≤ (ScoringEngine.score dc).2.2.2.1 ∧ (ScoringEngine.score dc).2.2.2.1 ≤ 100) := by
  obtain ⟨hcfg, hs, hr, hw, hre, hcs⟩ := hv
  refine ⟨?_, ?_, ?_, score_box1_overall_bounds dc, score_box2_overall_bounds dc,
    score_box3_overall_bounds dc hcfg hw, ?_⟩
  · intro m hm
    have hlist : (score_box1 dc).sub_metrics.map SubMetricScore.score
        = [(scorePue dc).2, (scoreUtilization dc).2, (scoreCost dc).2,
            (scoreCooling dc).2, (scoreAvailability dc).2, (scoreCarbon dc).2] := rfl
    have hmem : m.score ∈ (score_box1 dc).sub_metrics.map SubMetricScore.score :=
      List.mem_map_of_mem _ hm
    rw [hlist] at hmem
    simp only [List.mem_cons, List.mem_singleton, List.not_mem_nil, or_false] at hmem
    rcases hmem with h | h | h | h | h | h <;> rw [h]
    · exact scorePue_bounds dc
    · exact scoreUtilization_bounds dc
    · exact scoreCost_bounds dc
    · exact scoreCooling_bounds dc
    · exact scoreAvailability_bounds dc
    · exact scoreCarbon_bounds dc
  · intro m hm
    have hlist : (score_box2 dc).sub_metrics.map SubMetricScore.score
        = [(scoreZombie dc).2, (scoreOverprovisioned dc).2, (scoreLegacy dc).2,
            (scoreCoolingWaste dc).2, (scoreStranded dc).2] := rfl
    have hmem : m.score ∈ (score_box2 dc).sub_metrics.map SubMetricScore.score :=
      List.mem_map_of_mem _ hm
    rw [hlist] at hmem
    simp only [List.mem_cons, List.mem_singleton, List.not_mem_nil, or_false] at hmem
    rcases hmem with h | h | h | h | h <;> rw [h]
    · exact scoreZombie_bounds dc
    · exact scoreOverprovisioned_bounds dc
    · exact scoreLegacy_bounds dc
    · exact scoreCoolingWaste_bounds dc
    · exact scoreStranded_bounds dc
  · intro m hm
    have hlist : (score_box3 dc).sub_metrics.map SubMetricScore.score
        = [(scoreForecast dc).2, (scoreRefresh dc).2, (scoreScheduling dc).2,
            (scoreRenewable dc).2, (scoreTrend dc).2] := rfl
    have hmem : m.score ∈ (score_box3 dc).sub_metrics.map SubMetricScore.score :=
      List.mem_map_of_mem _ hm
    rw [hlist] at hmem
    simp only [List.mem_cons, List.mem_singleton, List.not_mem_nil, or_false] at hmem
    rcases hmem with h | h | h | h | h <;> rw [h]
    · exact scoreForecast_bounds dc
    · exact scoreRefresh_bounds dc
    · exact scoreScheduling_bounds dc hw
    · exact scoreRenewable_bounds dc hcfg
    · exact scoreTrend_bounds dc
  · have he : (ScoringEngine.score dc).2.2.2.1 = roundTo 2
        ((score_box1 dc).overall_score * BOX1_WEIGHT
          + (score_box2 dc).overall_score * BOX2_WEIGHT
          + (score_box3 dc).overall_score * BOX3_WEIGHT) := rfl
    obtain ⟨a0, a1⟩ := score_box1_overall_bounds dc
    obtain ⟨b0, b1⟩ := score_box2_overall_bounds dc
    obtain ⟨c0, c1⟩ := score_box3_overall_bounds dc hcfg hw
    rw [he]
    unfold BOX1_WEIGHT BOX2_WEIGHT BOX3_WEIGHT
    exact roundTo_clamp 2 (by nlinarith) (by nlinarith)

unseal Rat.mul Rat.add Rat.sub Rat.inv in
/-- Witness for C3 at the concrete empty-fleet snapshot `dcEmptyA`. -/
theorem C3_all_scores_in_range_witness :
    (∀ m ∈ (score_box1 dcEmptyA).sub_metrics, 0 ≤ m.score ∧ m.score ≤ 100)
    ∧ (∀ m ∈ (score_box2 dcEmptyA).sub_metrics, 0 ≤ m.score ∧ m.score ≤ 100)
    ∧ (∀ m ∈ (score_box3 dcEmptyA).sub_metrics, 0 ≤ m.score ∧ m.score ≤ 100)
    ∧ (0 ≤ (score_box1 dcEmptyA).overall_score ∧ (score_box1 dcEmptyA).overall_score ≤ 100)
    ∧ (0 ≤ (score_box2 dcEmptyA).overall_score ∧ (score_box2 dcEmptyA).overall_score ≤ 100)
    ∧ (0 ≤ (score_box3 dcEmptyA).overall_score ∧ (score_box3 dcEmptyA).overall_score ≤ 100)
    ∧ (0 ≤ (ScoringEngine.score dcEmptyA).2.2.2.1
        ∧ (ScoringEngine.score dcEmptyA).2.2.2.1 ≤ 100) :=
  C3_all_scores_in_range dcEmptyA (by decide)

theorem mem_iteL {α : Type} {c : Prop} [Decidable c] {x a : α} :
    a ∈ iteL c x ↔ c ∧ a = x := by
  unfold iteL
  split_ifs with h
  · simp [h]
  · simp [h]

theorem iteL_sublist {α : Type} (c : Prop) [Decidable c] (x : α) :
    List.Sublist (iteL c x) [x] := by
  unfold iteL
  split_ifs
  · exact List.Sublist.refl _
  · exact List.nil_sublist _

/-- An optional block followed by a sublist is a sublist of the cons. -/
theorem iteL_cons_sublist {α : Type} (c : Prop) [Decidable c] (x : α) {l₁ l₂ : List α}
    (h : List.Sublist l₁ l₂) : List.Sublist (iteL c x ++ l₁) (x :: l₂) := by
  unfold iteL
  split_ifs
  · exact List.Sublist.cons₂ x h
  · exact List.Sublist.cons x h

/-- The triggered candidate list is a sublist of the eight-category list. -/
theorem candidates_sublist (dc : DataCenter) :
    List.Sublist (RecommendationEngine.candidates dc) (masterCandidates dc) := by
  unfold RecommendationEngine.candidates masterCandidates
  apply iteL_cons_sublist
  apply iteL_cons_sublist
  apply iteL_cons_sublist
  apply iteL_cons_sublist
  apply iteL_cons_sublist
  apply iteL_cons_sublist
  apply iteL_cons_sublist
  apply iteL_sublist

theorem master_pairwise_cat (dc : DataCenter) :
    (masterCandidates dc).Pairwise fun a b => catOrder a.title < catOrder b.title := by
  have h0 : catOrder (RecommendationEngine.zombieCandidate dc).title = 0 := rfl
  have h1 : catOrder (RecommendationEngine.rightsizingCandidate dc).title = 1 := rfl
  have h2 : catOrder (RecommendationEngine.refreshCandidate dc).title = 2 := rfl
  have h3 : catOrder (RecommendationEngine.coolingCandidate dc).title = 3 := rfl
  have h4 : catOrder (RecommendationEngine.schedulingCandidate dc).title = 4 := rfl
  have h5 : catOrder (RecommendationEngine.renewableCandidate dc).title = 5 := rfl
  have h6 : catOrder (RecommendationEngine.pueCandidate dc).title = 6 := rfl
  have h7 : catOrder (RecommendationEngine.capacityCandidate dc).title = 7 := rfl
  unfold masterCandidates
  simp [List.pairwise_cons, h0, h1, h2, h3, h4, h5, h6, h7]

theorem candidates_pairwise_cat (dc : DataCenter) :
    (RecommendationEngine.candidates dc).Pairwise
      fun a b => catOrder a.title < catOrder b.title :=
  List.Pairwise.sublist (candidates_sublist dc) (master_pairwise_cat dc)

theorem pairwise_sIns_candQ (x : Candidate) :
    ∀ l : List Candidate, l.Pairwise candQ →
      (∀ y ∈ l, catOrder y.title < catOrder x.title) →
      (sIns RecommendationEngine.candLt x l).Pairwise candQ := by
  intro l
  induction l with
  | nil =>
    intro _ _
    simp [sIns]
  | cons y ys ih =>
    intro hl hg
    obtain ⟨hy_all, hys⟩ := List.pairwise_cons.mp hl
    unfold sIns
    split_ifs with hxy
    · refine List.Pairwise.cons ?_ hl
      intro z hz
      rcases List.mem_cons.mp hz with rfl | hz'
      · exact Or.inl hxy
      · rcases hy_all z hz' with h1 | ⟨h1, _⟩
        · exact Or.inl (lt_trans h1 hxy)
        · exact Or.inl (h1 ▸ hxy)
    · refine List.Pairwise.cons ?_ (ih hys fun t ht => hg t (List.mem_cons_of_mem _ ht))
      intro z hz
      rcases (mem_sIns RecommendationEngine.candLt x z ys).mp hz with rfl | hz'
      · have hle : z.monthly_savings_dollars ≤ y.monthly_savings_dollars := not_lt.mp hxy
        rcases lt_or_eq_of_le hle with hlt | heq
        · exact Or.inl hlt
        · exact Or.inr ⟨heq.symm, hg y (List.mem_cons_self _ _)⟩
      · exact hy_all z hz'

theorem pairwise_foldl_candQ :
    ∀ l acc : List Candidate,
      l.Pairwise (fun a b => catOrder a.title < catOrder b.title) →
      acc.Pairwise candQ →
      (∀ y ∈ acc, ∀ x ∈ l, catOrder y.title < catOrder x.title) →
      (l.foldl (fun acc x => sIns RecommendationEngine.candLt x acc) acc).Pairwise candQ := by
  intro l
  induction l with
  | nil =>
    intro acc _ hacc _
    simpa using hacc
  | cons x xs ih =>
    intro acc hl hacc hcross
    simp only [List.foldl_cons]
    refine ih (sIns RecommendationEngine.candLt x acc) (List.pairwise_cons.mp hl).2
      (pairwise_sIns_candQ x acc hacc fun y hy => hcross y hy x (by simp)) ?_
    intro y hy z hz
    rcases (mem_sIns RecommendationEngine.candLt x y acc).mp hy with rfl | hy'
    · exact (List.pairwise_cons.mp hl).1 z hz
    · exact hcross y hy' z (List.mem_cons_of_mem _ hz)

theorem pairwise_sSort_candQ (l : List Candidate)
    (hl : l.Pairwise fun a b => catOrder a.title < catOrder b.title) :
    (sSort RecommendationEngine.candLt l).Pairwise candQ :=
  pairwise_foldl_candQ l [] hl (by simp) (by simp)

theorem length_rankFrom (n : ℕ) (l : List Candidate) :
    (RecommendationEngine.rankFrom n l).length = l.length := by
  induction l generalizing n with
  | nil => rfl
  | cons c cs ih =>
    simp [RecommendationEngine.rankFrom, ih]

theorem map_rank_rankFrom (n : ℕ) (l : List Candidate) :
    (RecommendationEngine.rankFrom n l).map Recommendation.rank = List.range' n l.length := by
  induction l generalizing n with
  | nil => rfl
  | cons c cs ih =>
    simp [RecommendationEngine.rankFrom, RecommendationEngine.mkRec, List.range', ih]

theorem mem_rankFrom {r : Recommendation} :
    ∀ {n : ℕ} {l : List Candidate}, r ∈ RecommendationEngine.rankFrom n l →
      ∃ c ∈ l, ∃ k, r = RecommendationEngine.mkRec k c := by
  intro n l
  induction l generalizing n with
  | nil =>
    intro h
    simp [RecommendationEngine.rankFrom] at h
  | cons c cs ih =>
    intro h
    rcases List.mem_cons.mp h with rfl | h'
    · exact ⟨c, by simp, n, rfl⟩
    · obtain ⟨d, hd, k, rfl⟩ := ih h'
      exact ⟨d, by simp [hd], k, rfl⟩

theorem pairwise_rankFrom {p : Recommendation → Recommendation → Prop}
    {q : Candidate → Candidate → Prop}
    (hpq : ∀ (k m : ℕ) (c d : Candidate), q c d →
      p (RecommendationEngine.mkRec k c) (RecommendationEngine.mkRec m d)) :
    ∀ (n : ℕ) (l : List Candidate), l.Pairwise q →
      (RecommendationEngine.rankFrom n l).Pairwise p := by
  intro n l
  induction l generalizing n with
  | nil =>
    intro _
    exact List.Pairwise.nil
  | cons c cs ih =>
    intro hl
    refine List.Pairwise.cons ?_ (ih _ (List.pairwise_cons.mp hl).2)
    intro r hr
    obtain ⟨d, hd, k, rfl⟩ := mem_rankFrom hr
    exact hpq _ _ _ _ ((List.pairwise_cons.mp hl).1 d hd)

/-- C4: for every snapshot, `RecommendationEngine.generate` returns a
list whose dollar savings are non-increasing; equal-dollar entries keep
their category-generation order (zombie, rightsizing, refresh, cooling,
scheduling, renewable, PUE improvement, capacity planning); ranks are
exactly 1..len; the list has at most 15 entries; and an empty candidate
list yields the empty list. -/
theorem C4_recommendation_list_invariants (dc : DataCenter) :
    ((RecommendationEngine.generate dc).Pairwise fun a b =>
        b.monthly_savings_dollars ≤ a.monthly_savings_dollars)
    ∧ ((RecommendationEngine.generate dc).Pairwise fun a b =>
        a.monthly_savings_dollars = b.monthly_savings_dollars →
          catOrder a.title < catOrder b.title)
    ∧ (RecommendationEngine.generate dc).map Recommendation.rank
        = List.range' 1 (RecommendationEngine.generate dc).length
    ∧ (RecommendationEngine.generate dc).length ≤ 15
    ∧ (RecommendationEngine.candidates dc = [] →
        RecommendationEngine.generate dc = []) := by
  have hsorted : ((sSort RecommendationEngine.candLt
      (RecommendationEngine.candidates dc)).take
        RecommendationEngine.MAX_RECOMMENDATIONS).Pairwise candQ :=
    List.Pairwise.sublist (List.take_sublist _ _)
      (pairwise_sSort_candQ _ (candidates_pairwise_cat dc))
  refine ⟨?_, ?_, ?_, ?_, ?_⟩
  · refine pairwise_rankFrom ?_ 1 _ hsorted
    intro k m c d hq
    rcases hq with h | ⟨h, _⟩
    · exact le_of_lt h
    · exact le_of_eq h.symm
  · refine pairwise_rankFrom ?_ 1 _ hsorted
    intro k m c d hq heq
    rcases hq with h | ⟨_, h⟩
    · exact absurd heq (by simp only [RecommendationEngine.mkRec] at heq ⊢; linarith)
    · exact h
  · have h1 := map_rank_rankFrom 1 ((sSort RecommendationEngine.candLt
      (RecommendationEngine.candidates dc)).take RecommendationEngine.MAX_RECOMMENDATIONS)
    have h2 := length_rankFrom 1 ((sSort RecommendationEngine.candLt
      (RecommendationEngine.candidates dc)).take RecommendationEngine.MAX_RECOMMENDATIONS)
    unfold RecommendationEngine.generate
    rw [h1, h2]
  · have h2 := length_rankFrom 1 ((sSort RecommendationEngine.candLt
      (RecommendationEngine.candidates dc)).take RecommendationEngine.MAX_RECOMMENDATIONS)
    unfold RecommendationEngine.generate
    rw [h2]
    exact le_trans (List.length_take_le _ _) (by norm_num [RecommendationEngine.MAX_RECOMMENDATIONS])
  · intro h
    unfold RecommendationEngine.generate
    rw [h]
    rfl

/-! ## Claim C2 (amended): savings are never negative -/

theorem detect_zombies_nonneg (dc : DataCenter)
    (hs : ∀ s ∈ dc.servers, ServerValid s) (hc : 0 ≤ dc.config.energy_cost_per_kwh) :
    ∀ e ∈ detect_zombies dc, 0 ≤ e.monthly_waste_kwh ∧ 0 ≤ e.monthly_waste_dollars := by
  intro e he
  unfold detect_zombies at he
  obtain ⟨s, hsf, rfl⟩ := List.mem_map.mp he
  have hp : 0 ≤ s.current_power_watts := (hs s (List.mem_of_mem_filter hsf)).2.1
  have harg : 0 ≤ s.current_power_watts * 24 * 30 / 1000 := by positivity
  exact ⟨roundTo_nonneg 2 harg, roundTo_nonneg 2 (mul_nonneg harg hc)⟩

theorem detect_overprovisioned_nonneg (dc : DataCenter) :
    ∀ e ∈ detect_overprovisioned dc, 0 ≤ e.potential_savings_watts := by
  intro e he
  unfold detect_overprovisioned at he
  obtain ⟨s, _, rfl⟩ := List.mem_map.mp he
  exact roundTo_nonneg 2 (le_max_right _ _)

theorem lifecycle_savings_nonneg (dc : DataCenter)
    (hs : ∀ s ∈ dc.servers, ServerValid s) :
    0 ≤ (analyze_hardware_lifecycle dc).estimated_refresh_savings_kwh := by
  unfold analyze_hardware_lifecycle
  split_ifs with h
  · norm_num
  · simp only []
    apply roundTo_nonneg
    have hsum : 0 ≤ ((dc.servers.filter isRefreshCandidate).map Server.current_power_watts).sum := by
      apply List.sum_nonneg
      intro x hx
      obtain ⟨s, hsf, rfl⟩ := List.mem_map.mp hx
      exact (hs s (List.mem_of_mem_filter hsf)).2.1
    positivity

theorem improvementKw_nonneg (cs : CoolingSystem) : 0 ≤ improvementKw cs := by
  unfold improvementKw
  split_ifs
  · exact le_max_right _ _
  · norm_num
  · norm_num

theorem cooling_improvement_nonneg (dc : DataCenter) :
    0 ≤ (analyze_cooling dc).improvement_potential_kwh := by
  unfold analyze_cooling
  split_ifs with h
  · norm_num
  · simp only []
    apply roundTo_nonneg
    have hsum : 0 ≤ (dc.cooling_systems.map improvementKw).sum := by
      apply List.sum_nonneg
      intro x hx
      obtain ⟨cs, _, rfl⟩ := List.mem_map.mp hx
      exact improvementKw_nonneg cs
    positivity

theorem scheduling_data_nonneg (dc : DataCenter)
    (hw : ∀ w ∈ dc.workloads, WorkloadValid w) (hc : 0 ≤ dc.config.energy_cost_per_kwh) :
    0 ≤ (analyze_workload_scheduling dc).schedulable_power_kw
    ∧ 0 ≤ (analyze_workload_scheduling dc).estimated_monthly_savings_dollars := by
  unfold analyze_workload_scheduling
  split_ifs with h
  · norm_num
  · simp only []
    have hsum : 0 ≤ ((dc.workloads.filter fun w => w.is_schedulable).map
        Workload.power_consumption_kw).sum := by
      apply List.sum_nonneg
      intro x hx
      obtain ⟨w, hwf, rfl⟩ := List.mem_map.mp hx
      exact hw w (List.mem_of_mem_filter hwf)
    constructor
    · exact roundTo_nonneg 2 hsum
    · apply roundTo_nonneg
      positivity

theorem renewable_tons_nonneg (dc : DataCenter)
    (hre : ∀ r ∈ dc.energy_readings, ReadingValid r) (hcfg : ConfigValid dc.config) :
    0 ≤ (analyze_renewable_opportunity dc).potential_carbon_reduction_tons_monthly := by
  obtain ⟨-, -, hcarb, -, hr1, -⟩ := hcfg
  have htot : 0 ≤ dc.total_energy_kwh := by
    apply roundTo_nonneg
    apply List.sum_nonneg
    intro x hx
    obtain ⟨r, hrm, rfl⟩ := List.mem_map.mp hx
    exact (hre r hrm).1
  have hfrac : 0 ≤ 1 - dc.config.renewable_percentage := by linarith
  unfold analyze_renewable_opportunity
  simp only []
  apply roundTo_nonneg
  positivity

theorem pueCandidate_nonneg (dc : DataCenter)
    (hre : ∀ r ∈ dc.energy_readings, ReadingValid r)
    (hc : 0 ≤ dc.config.energy_cost_per_kwh)
    (ht : dc.config.pue_target < dc.avg_pue) :
    0 ≤ (RecommendationEngine.pueCandidate dc).monthly_savings_dollars
    ∧ 0 ≤ (RecommendationEngine.pueCandidate dc).monthly_energy_savings_kwh := by
  have hit : 0 ≤ (match dc.energy_readings.getLast? with
      | some r => r.it_equipment_power_kw
      | none => 0 : ℚ) := by
    cases hlast : dc.energy_readings.getLast? with
    | none => norm_num
    | some r =>
      simp only []
      have hopt : r ∈ dc.energy_readings.getLast? := Option.mem_def.mpr hlast
      obtain ⟨hne, heq⟩ := List.mem_getLast?_eq_getLast hopt
      have hmem : r ∈ dc.energy_readings := heq ▸ List.getLast_mem hne
      exact (hre r hmem).2.1
  have hgap : 0 ≤ dc.avg_pue - dc.config.pue_target := by linarith
  have hkwh : 0 ≤ (match dc.energy_readings.getLast? with
      | some r => r.it_equipment_power_kw
      | none => 0 : ℚ) * (dc.avg_pue - dc.config.pue_target) * 24 * 30 := by positivity
  exact ⟨roundTo_nonneg 2 (mul_nonneg hkwh hc), roundTo_nonneg 2 hkwh⟩

/-- C2 amended: `generate` never emits negative savings — every returned
recommendation has nonnegative dollar and kWh components (while, per the
counterexample, both can simultaneously be zero: there is no zero-impact
filter). -/
theorem C2_amended_savings_nonneg (dc : DataCenter) (hv : Valid dc) :
    ∀ r ∈ RecommendationEngine.generate dc,
      0 ≤ r.monthly_savings_dollars ∧ 0 ≤ r.monthly_energy_savings_kwh := by
  obtain ⟨hcfg, hs, hr, hw, hre, hcs⟩ := hv
  have hc : 0 ≤ dc.config.energy_cost_per_kwh := le_of_lt hcfg.2.1
  intro r hrmem
  obtain ⟨c, hctake, k, rfl⟩ := mem_rankFrom hrmem
  have hc1 : c ∈ sSort RecommendationEngine.candLt (RecommendationEngine.candidates dc) :=
    List.mem_of_mem_take hctake
  have hc2 : c ∈ RecommendationEngine.candidates dc :=
    (mem_sSort RecommendationEngine.candLt c _).mp hc1
  suffices h : 0 ≤ c.monthly_savings_dollars ∧ 0 ≤ c.monthly_energy_savings_kwh from h
  unfold RecommendationEngine.candidates at hc2
  simp only [List.mem_append, mem_iteL] at hc2
  rcases hc2 with ⟨ht, rfl⟩ | ⟨ht, rfl⟩ | ⟨ht, rfl⟩ | ⟨ht, rfl⟩ | ⟨ht, rfl⟩ | ⟨ht, rfl⟩
    | ⟨ht, rfl⟩ | ⟨ht, rfl⟩
  · constructor
    · apply roundTo_nonneg
      apply List.sum_nonneg
      intro x hx
      obtain ⟨e, he, rfl⟩ := List.mem_map.mp hx
      exact (detect_zombies_nonneg dc hs hc e he).2
    · apply roundTo_nonneg
      apply List.sum_nonneg
      intro x hx
      obtain ⟨e, he, rfl⟩ := List.mem_map.mp hx
      exact (detect_zombies_nonneg dc hs hc e he).1
  · have hsum : 0 ≤ ((detect_overprovisioned dc).map OverprovEntry.potential_savings_watts).sum := by
      apply List.sum_nonneg
      intro x hx
      obtain ⟨e, he, rfl⟩ := List.mem_map.mp hx
      exact detect_overprovisioned_nonneg dc e he
    constructor
    · apply roundTo_nonneg
      have : 0 ≤ ((detect_overprovisioned dc).map OverprovEntry.potential_savings_watts).sum
          * 24 * 30 / 1000 := by positivity
      exact mul_nonneg this hc
    · apply roundTo_nonneg
      positivity
  · have hest := lifecycle_savings_nonneg dc hs
    exact ⟨roundTo_nonneg 2 (mul_nonneg hest hc), roundTo_nonneg 2 hest⟩
  · have hest := cooling_improvement_nonneg dc
    exact ⟨roundTo_nonneg 2 (mul_nonneg hest hc), roundTo_nonneg 2 hest⟩
  · obtain ⟨hp, hd⟩ := scheduling_data_nonneg dc hw hc
    constructor
    · exact roundTo_nonneg 2 hd
    · apply roundTo_nonneg
      positivity
  · have htons := renewable_tons_nonneg dc hre hcfg
    constructor
    · apply roundTo_nonneg
      split_ifs
      · exact abs_nonneg _
      · norm_num
    · apply roundTo_nonneg
      positivity
  · exact pueCandidate_nonneg dc hre hc ht
  · constructor
    · exact roundTo_nonneg 2 (le_max_right _ _)
    · exact roundTo_nonneg 2 (le_max_right _ _)

unseal Rat.mul Rat.add Rat.sub Rat.inv in
/-- Witness for the amended C2 at `dcEmptyA`, whose single
recommendation is the renewable one with exactly zero in both fields. -/
theorem C2_amended_savings_nonneg_witness :
    0 ≤ renewZeroRec.monthly_savings_dollars
    ∧ 0 ≤ renewZeroRec.monthly_energy_savings_kwh :=
  C2_amended_savings_nonneg dcEmptyA (by decide) renewZeroRec (by decide)

/-! ## Claim C8: capped 120-month runway under non-positive growth -/

theorem length_sortReadings (l : List EnergyReading) :
    (sortReadings l).length = l.length :=
  length_sSort _ l

/-- C8: with at least 48 readings, nonzero capacity, and non-positive
growth (the mean facility power of the last 24 chronologically sorted
readings at most that of the first 24), the forecast sub-metric reports
exactly the capped 120-month sentinel and scores 100. -/
theorem C8_forecast_nonpositive_growth (dc : DataCenter)
    (h48 : 48 ≤ dc.energy_readings.length)
    (hcap : 0 < dc.config.total_power_capacity_mw)
    (hflat : avgBy EnergyReading.total_facility_power_kw
        ((sortReadings dc.energy_readings).drop ((sortReadings dc.energy_readings).length - 24))
      ≤ avgBy EnergyReading.total_facility_power_kw
        ((sortReadings dc.energy_readings).take 24)) :
    scoreForecast dc = (120, 100) := by
  have hlen : (sortReadings dc.energy_readings).length = dc.energy_readings.length :=
    length_sortReadings dc.energy_readings
  have hne : dc.energy_readings ≠ [] := by
    intro h0
    rw [h0] at h48
    norm_num at h48
  have hcappos : 0 < dc.config.total_power_capacity_mw * 1000 := by nlinarith
  have hspan : (0 : ℚ) < ((max 1 (((sortReadings dc.energy_readings).length : ℤ) - 24) : ℤ) : ℚ) := by
    have h1 : (1 : ℤ) ≤ max 1 (((sortReadings dc.energy_readings).length : ℤ) - 24) :=
      le_max_left _ _
    have : (0 : ℤ) < max 1 (((sortReadings dc.energy_readings).length : ℤ) - 24) := by omega
    exact_mod_cast this
  have hgrow : (avgBy EnergyReading.total_facility_power_kw
        ((sortReadings dc.energy_readings).drop ((sortReadings dc.energy_readings).length - 24))
      - avgBy EnergyReading.total_facility_power_kw
        ((sortReadings dc.energy_readings).take 24))
      / ((max 1 (((sortReadings dc.energy_readings).length : ℤ) - 24) : ℤ) : ℚ) ≤ 0 :=
    div_nonpos_iff.mpr (Or.inr ⟨sub_nonpos.mpr hflat, le_of_lt hspan⟩)
  have h120 : max (0 : ℚ) (min 120 120) = 120 := by norm_num
  have hr120 : roundTo 1 (120 : ℚ) = 120 := by
    have h := roundTo_intCast 1 120
    norm_num at h
    exact h
  have hr100 : roundTo 2 (100 : ℚ) = 100 := by
    have h := roundTo_intCast 2 100
    norm_num at h
    exact h
  unfold scoreForecast
  simp only []
  rw [if_neg (not_or.mpr ⟨hne, not_le.mpr hcappos⟩)]
  rw [if_pos (by omega : 24 ≤ (sortReadings dc.energy_readings).length)]
  rw [if_pos (by omega : 48 ≤ (sortReadings dc.energy_readings).length)]
  rw [if_neg (not_lt.mpr hgrow)]
  rw [h120]
  rw [if_pos (by norm_num : (24 : ℚ) < 120)]
  rw [hr120, hr100]

unseal Rat.mul Rat.add Rat.sub Rat.inv in
/-- Witness for C8 at the 48-flat-readings snapshot `dc48`. -/
theorem C8_forecast_nonpositive_growth_witness :
    scoreForecast dc48 = (120, 100) :=
  C8_forecast_nonpositive_growth dc48 (by decide) (by decide) (by decide)

end EnergyAudit
